import Mathlib

/-!
# NetworkFS-Manager: lifecycle reconciler and attachment-ticket manager

A shallow embedding of `pkg/controller/networkfilesystem/controller.go`.

* Kubernetes objects are records holding the fields the controller reads or writes.
* Go maps are association lists read by first match, wrapped in `Option` (the nil map is `none`);
  `reflect.DeepEqual` on maps is extensional equality of the lookups plus agreement on nil-ness.
* The resource store is a `World`: the answer of every `Get` issued for the record's name, and
  whether `Update` / `UpdateStatus` are accepted.
* A handler run yields an `Outcome`: the Go return value (or a run-time panic) together with the
  `Update` calls issued on the volume attachment and the `UpdateStatus` calls issued on the record.
-/

namespace NetworkFSManager

/-! ## Go maps -/

/-- A Go `map[string]β`: `none` is the nil map, `some kvs` a non-nil map read by first match. -/
abbrev GoMap (β : Type) := Option (List (String × β))

/-- The comma-ok lookup `v, ok := m[k]` (a nil map has no binding). -/
def GoMap.get {β : Type} (m : GoMap β) (k : String) : Option β :=
  match m with
  | none => none
  | some kvs => kvs.lookup k

/-- The assignment `m[k] = v` on a non-nil map. -/
def mapSet {β : Type} (kvs : List (String × β)) (k : String) (v : β) : List (String × β) :=
  (k, v) :: kvs.filter (fun e => e.1 != k)

/-- Deep equality of two lookup results: both absent, or both present and deeply equal. The same
rule compares two pointers, `none` being nil. -/
def optDeepEqual {β : Type} (eq : β → β → Bool) : Option β → Option β → Bool
  | none, none => true
  | some a, some b => eq a b
  | _, _ => false

/-- Deep equality of two non-nil maps: the same keys, bound to deeply equal values. -/
def kvsDeepEqual {β : Type} (eq : β → β → Bool) (x y : List (String × β)) : Bool :=
  (x.map Prod.fst ++ y.map Prod.fst).all fun k => optDeepEqual eq (x.lookup k) (y.lookup k)

/-- The function `reflect.DeepEqual` on maps: both nil, or both non-nil and deeply equal. -/
def mapDeepEqual {β : Type} (eq : β → β → Bool) (a b : GoMap β) : Bool :=
  match a, b with
  | none, none => true
  | some x, some y => kvsDeepEqual eq x y
  | _, _ => false

/-! ## Constants -/

/-- Modelled from the spec: `NetworkFSStateEnabled`, declared in `pkg/apis/harvesterhci.io/v1beta1`;
the state enum of the spec is {Unknown, Disabled, Enabling, Enabled, Disabling}. -/
def NetworkFSStateEnabled : String := "Enabled"
/-- Modelled from the spec: `NetworkFSStateEnabling`, declared in `pkg/apis/harvesterhci.io/v1beta1`. -/
def NetworkFSStateEnabling : String := "Enabling"
/-- Modelled from the spec: `NetworkFSStateDisabling`, declared in `pkg/apis/harvesterhci.io/v1beta1`. -/
def NetworkFSStateDisabling : String := "Disabling"
/-- Modelled from the spec: `NetworkFSStateDisabled`, declared in `pkg/apis/harvesterhci.io/v1beta1`. -/
def NetworkFSStateDisabled : String := "Disabled"
/-- Modelled from the spec: `NetworkFSStateUnknown`, declared in `pkg/apis/harvesterhci.io/v1beta1`. -/
def NetworkFSStateUnknown : String := "Unknown"
/-- Modelled from the spec: `EndpointStatusReady`; the endpoint-status enum of the spec is
{Unknown, Ready, NotReady}. -/
def EndpointStatusReady : String := "Ready"
/-- Modelled from the spec: `EndpointStatusNotReady`, declared in `pkg/apis/harvesterhci.io/v1beta1`. -/
def EndpointStatusNotReady : String := "NotReady"
/-- Modelled from the spec: `EndpointStatusUnknown`, declared in `pkg/apis/harvesterhci.io/v1beta1`. -/
def EndpointStatusUnknown : String := "Unknown"
/-- Modelled from the spec: `NetworkFSTypeNFS`, the export protocol tag. -/
def NetworkFSTypeNFS : String := "NFS"
/-- Modelled from the spec: `ConditionTypeReady`, the type of the Ready condition. -/
def ConditionTypeReady : String := "Ready"

/-- The constant `corev1.ConditionTrue`. -/
def ConditionTrue : String := "True"
/-- The constant `corev1.ClusterIPNone`, the cluster address of a headless service. -/
def ClusterIPNone : String := "None"
/-- The constant `longhornv2.ShareManagerStateStopped`. -/
def ShareManagerStateStopped : String := "stopped"
/-- The constant `longhornv2.ShareManagerStateRunning`. -/
def ShareManagerStateRunning : String := "running"
/-- The constant `longhornv2.AttacherTypeCSIAttacher`. -/
def AttacherTypeCSIAttacher : String := "csi-attacher"
/-- The constant `longhornv2.AttacherTypeShareManagerController`. -/
def AttacherTypeShareManagerController : String := "share-manager-controller"
/-- The constant `longhornv2.AttachmentParameterDisableFrontend`. -/
def AttachmentParameterDisableFrontend : String := "disableFrontend"

/-! ## Data model -/

/-- An entry of `status.conditions`. -/
structure NetworkFSCondition where
  type : String
  status : String
  lastTransitionTime : Nat
  reason : String
  message : String
deriving DecidableEq, Repr

/-- The field `NetworkFilesystem.Spec`. -/
structure NetworkFSSpec where
  desiredState : String
  preferredNode : String
deriving DecidableEq, Repr

/-- The field `NetworkFilesystem.Status`; `status` is the endpoint status and `mountOpts` the
mount options. -/
structure NetworkFSStatus where
  endpoint : String
  status : String
  state : String
  type : String
  mountOpts : String
  networkFSConds : List NetworkFSCondition
deriving DecidableEq, Repr

/-- The NetworkFilesystem record; `deletionTimestamp` is the deletion marker. -/
structure NetworkFilesystem where
  name : String
  deletionTimestamp : Option Nat
  spec : NetworkFSSpec
  status : NetworkFSStatus
deriving DecidableEq, Repr

/-- A Longhorn attachment ticket. -/
structure AttachmentTicket where
  id : String
  type : String
  nodeID : String
  parameters : GoMap String
deriving DecidableEq, Repr

/-- The field `VolumeAttachment.Spec`; a ticket is held by pointer, `none` being the nil pointer. -/
structure VolumeAttachmentSpec where
  attachmentTickets : GoMap (Option AttachmentTicket)
  volume : String
deriving DecidableEq, Repr

/-- The Longhorn volume-attachment descriptor. -/
structure VolumeAttachment where
  name : String
  spec : VolumeAttachmentSpec
deriving DecidableEq, Repr

/-- Deep equality of two tickets. -/
def AttachmentTicket.deepEqual (a b : AttachmentTicket) : Bool :=
  a.id == b.id && a.type == b.type && a.nodeID == b.nodeID
    && mapDeepEqual (fun s t : String => s == t) a.parameters b.parameters

/-- Deep equality of two ticket pointers. -/
def ticketPtrDeepEqual (a b : Option AttachmentTicket) : Bool :=
  optDeepEqual AttachmentTicket.deepEqual a b

/-- The call `reflect.DeepEqual(lhva, lhvaCpy)`. -/
def VolumeAttachment.deepEqual (a b : VolumeAttachment) : Bool :=
  a.name == b.name && a.spec.volume == b.spec.volume
    && mapDeepEqual ticketPtrDeepEqual a.spec.attachmentTickets b.spec.attachmentTickets

/-- The share-manager status. -/
structure ShareManagerStatus where
  state : String
deriving DecidableEq, Repr

/-- The Longhorn share-manager descriptor. -/
structure ShareManager where
  status : ShareManagerStatus
deriving DecidableEq, Repr

/-- The field `Service.Spec`. -/
structure ServiceSpec where
  clusterIP : String
deriving DecidableEq, Repr

/-- The service of the record's name. -/
structure Service where
  spec : ServiceSpec
deriving DecidableEq, Repr

/-- An address of an endpoint subset. -/
structure EndpointAddress where
  ip : String
deriving DecidableEq, Repr

/-- A port of an endpoint subset. -/
structure EndpointPort where
  name : String
deriving DecidableEq, Repr

/-- An endpoint subset. -/
structure EndpointSubset where
  addresses : List EndpointAddress
  ports : List EndpointPort
deriving DecidableEq, Repr

/-- The endpoints resource of the record's name. -/
structure Endpoints where
  subsets : List EndpointSubset
deriving DecidableEq, Repr

/-- The CSI source of a persistent volume. -/
structure CSIPersistentVolumeSource where
  volumeAttributes : GoMap String
deriving DecidableEq, Repr

/-- The field `PersistentVolume.Spec`; `csi` is a pointer, `none` being nil. -/
structure PersistentVolumeSpec where
  csi : Option CSIPersistentVolumeSource
deriving DecidableEq, Repr

/-- The backing-volume descriptor. -/
structure PersistentVolume where
  spec : PersistentVolumeSpec
deriving DecidableEq, Repr

/-- A Go error value: a not-found answer of the store, or any other error. -/
inductive Error where
  | notFound (msg : String)
  | failure (msg : String)
deriving DecidableEq, Repr

/-- The predicate `errors.IsNotFound`. -/
def IsNotFound : Error → Bool
  | .notFound _ => true
  | .failure _ => false

/-- What a handler run hands back: the Go pair `(obj, nil)`, the pair `(nil, err)`, or a
run-time panic. -/
inductive Ret where
  | ok (obj : Option NetworkFilesystem)
  | error (e : Error)
  | panic (msg : String)
deriving DecidableEq, Repr

/-- The result of a handler run with the calls it issued, oldest first. -/
structure Outcome where
  ret : Ret
  lhvaUpdates : List VolumeAttachment
  statusWrites : List NetworkFilesystem
deriving DecidableEq, Repr

/-- The resource store as seen for one record name. The generated clients return the zero object
together with the error when a `Get` fails. `updateNetworkFSConds` is `utils.UpdateNetworkFSConds`
and `now` the reading of `metav1.Now()`; both are taken as given. -/
structure World where
  shareManager : Except Error ShareManager
  volumeAttachment : Except Error VolumeAttachment
  volumeAttachmentUpdateErr : Option Error
  service : Except Error Service
  endpoints : Except Error Endpoints
  persistentVolume : Except Error PersistentVolume
  updateStatusErr : Option Error
  updateNetworkFSConds : List NetworkFSCondition → NetworkFSCondition → List NetworkFSCondition
  now : Nat

/-! ## Attachment ticket manager -/

/-- The ticket ID `fmt.Sprintf("csi-%s", name)`. -/
def csiTicketID (name : String) : String := "csi-" ++ name

/-- The ticket ID `fmt.Sprintf("share-manager-controller-%s", name)`. -/
def shareMgrTicketID (name : String) : String := "share-manager-controller-" ++ name

/-- The ticket `doAttachLHVolumeAttachment` creates for a missing ID. -/
def newTicket (id type nodeID : String) : AttachmentTicket :=
  { id := id, type := type, nodeID := nodeID,
    parameters := some [(AttachmentParameterDisableFrontend, "false")] }

/-- The descriptor `lhvaCpy` that `doAttachLHVolumeAttachment` computes (lines 228-264). -/
def attachCpy (networkFS : NetworkFilesystem) (lhva : VolumeAttachment) : VolumeAttachment :=
  let nodeID := if networkFS.spec.preferredNode != "" then networkFS.spec.preferredNode else ""
  let csiID := csiTicketID networkFS.name
  let smID := shareMgrTicketID networkFS.name
  let attachmentTicketCSI : Option AttachmentTicket :=
    match lhva.spec.attachmentTickets.get csiID with
    | some t => t
    | none => some (newTicket csiID AttacherTypeCSIAttacher nodeID)
  let tickets := mapSet [] csiID attachmentTicketCSI
  let attachmentTicketSM : Option AttachmentTicket :=
    match lhva.spec.attachmentTickets.get smID with
    | some t => t
    | none => some (newTicket smID AttacherTypeShareManagerController nodeID)
  let tickets := mapSet tickets smID attachmentTicketSM
  { lhva with spec := { lhva.spec with attachmentTickets := some tickets } }

/-- The function `doAttachLHVolumeAttachment`: the error handed back and the `Update` calls
issued on the volume attachment. -/
def doAttachLHVolumeAttachment (w : World) (networkFS : NetworkFilesystem)
    (lhva : VolumeAttachment) : Option Error × List VolumeAttachment :=
  let lhvaCpy := attachCpy networkFS lhva
  if !lhva.deepEqual lhvaCpy then (w.volumeAttachmentUpdateErr, [lhvaCpy]) else (none, [])

/-- The descriptor `lhvaCpy` that `doDeattachLHVolumeAttachment` computes. -/
def detachCpy (lhva : VolumeAttachment) : VolumeAttachment :=
  { lhva with spec := { lhva.spec with attachmentTickets := some [] } }

/-- The function `doDeattachLHVolumeAttachment`: the error handed back and the `Update` calls
issued on the volume attachment. -/
def doDeattachLHVolumeAttachment (w : World) (_networkFS : NetworkFilesystem)
    (lhva : VolumeAttachment) : Option Error × List VolumeAttachment :=
  let lhvaCpy := detachCpy lhva
  if !lhva.deepEqual lhvaCpy then (w.volumeAttachmentUpdateErr, [lhvaCpy]) else (none, [])

/-- The function `updateLHVolumeAttachment`. -/
def updateLHVolumeAttachment (w : World) (networkFS : NetworkFilesystem) (attach : Bool) :
    Option Error × List VolumeAttachment :=
  match w.volumeAttachment with
  | .error e => (some e, [])
  | .ok lhva =>
    if attach then doAttachLHVolumeAttachment w networkFS lhva
    else doDeattachLHVolumeAttachment w networkFS lhva

/-! ## Lifecycle reconciler -/

/-- The function `isEnabling`. -/
def isEnabling (networkFS : NetworkFilesystem) : Bool :=
  networkFS.status.state == NetworkFSStateEnabling

/-- The function `isDisabling`. -/
def isDisabling (networkFS : NetworkFilesystem) : Bool :=
  networkFS.status.state == NetworkFSStateDisabling

/-- The call `c.NetworkFilsystems.UpdateStatus(obj)` as a return value: the written record when
the store accepts the write, the store's error otherwise. -/
def updateStatus (w : World) (obj : NetworkFilesystem) : Ret :=
  match w.updateStatusErr with
  | none => .ok (some obj)
  | some e => .error e

/-- The object a `Get` hands back: the fetched one, or the zero object next to an error. -/
def getObj {α : Type} (zero : α) : Except Error α → α
  | .ok a => a
  | .error _ => zero

/-- The error a `Get` hands back, if any. -/
def getErr {α : Type} : Except Error α → Option Error
  | .ok _ => none
  | .error e => some e

/-- The Ready condition built at lines 188-194. -/
def readyCondition (now : Nat) : NetworkFSCondition :=
  { type := ConditionTypeReady, status := ConditionTrue, lastTransitionTime := now,
    reason := "Endpoint is ready", message := "Endpoint contains the corresponding address" }

/-- The function `disableNetworkFS`. -/
def disableNetworkFS (w : World) (networkFS : NetworkFilesystem) : Outcome :=
  if !isDisabling networkFS then
    match updateLHVolumeAttachment w networkFS false with
    | (some err, ups) => ⟨.error err, ups, []⟩
    | (none, ups) =>
      let networkFSCpy :=
        { networkFS with status := { networkFS.status with state := NetworkFSStateDisabling } }
      if networkFS ≠ networkFSCpy then ⟨updateStatus w networkFSCpy, ups, [networkFSCpy]⟩
      else ⟨.ok none, ups, []⟩
  else ⟨.ok none, [], []⟩

/-- Lines 174-196 of `enableNetworkFS`: the mount options and the final status write, on the copy
`networkFSCpy` whose endpoint is already set. -/
def enableFinish (w : World) (networkFSCpy : NetworkFilesystem) (ups : List VolumeAttachment) :
    Outcome :=
  let pv := getObj (⟨⟨none⟩⟩ : PersistentVolume) w.persistentVolume
  match (getErr w.persistentVolume).filter (fun err => !IsNotFound err) with
  | some err => ⟨.error err, ups, []⟩
  | none =>
    match pv.spec.csi with
    | none => ⟨.panic "invalid memory address or nil pointer dereference", ups, []⟩
    | some csi =>
      let opts :=
        match csi.volumeAttributes.get "nfsOptions" with
        | some v => v
        | none => ""
      let networkFSCpy :=
        { networkFSCpy with
          status :=
            { networkFSCpy.status with
              state := NetworkFSStateEnabled
              type := NetworkFSTypeNFS
              status := EndpointStatusReady
              mountOpts := opts
              networkFSConds :=
                w.updateNetworkFSConds networkFSCpy.status.networkFSConds (readyCondition w.now) } }
      ⟨updateStatus w networkFSCpy, ups, [networkFSCpy]⟩

/-- Lines 136-172 of `enableNetworkFS`: the share-manager check and the address resolution; `ups`
are the `Update` calls issued so far. -/
def enableResolve (w : World) (networkFS : NetworkFilesystem) (lhShareMgr : ShareManager)
    (ups : List VolumeAttachment) : Outcome :=
  if lhShareMgr.status.state != ShareManagerStateRunning then
    ⟨.error (.failure ("wait the share manager " ++ networkFS.name ++ " to be running")), ups, []⟩
  else
    match w.service with
    | .error err => ⟨.error err, ups, []⟩
    | .ok service =>
      if service.spec.clusterIP != ClusterIPNone then
        if service.spec.clusterIP == "" then ⟨.ok none, ups, []⟩
        else
          enableFinish w
            { networkFS with status := { networkFS.status with endpoint := service.spec.clusterIP } }
            ups
      else
        let endpoint := getObj (⟨[]⟩ : Endpoints) w.endpoints
        match endpoint.subsets with
        | [] => ⟨.ok none, ups, []⟩
        | subset0 :: rest =>
          if rest.length + 1 > 1 || subset0.addresses.length > 1 || subset0.ports.length > 1 then
            ⟨.error (.failure ("endpoint " ++ networkFS.name ++ " has more than one subSets")),
              ups, []⟩
          else
            match subset0.ports with
            | [] => ⟨.panic "index out of range [0] with length 0", ups, []⟩
            | port0 :: _ =>
              if port0.name != "nfs" then
                ⟨.error (.failure ("endpoint " ++ networkFS.name ++ " has no nfs port")), ups, []⟩
              else
                match subset0.addresses with
                | [] => ⟨.panic "index out of range [0] with length 0", ups, []⟩
                | address0 :: _ =>
                  enableFinish w
                    { networkFS with status := { networkFS.status with endpoint := address0.ip } }
                    ups

/-- The function `enableNetworkFS`. -/
def enableNetworkFS (w : World) (networkFS : NetworkFilesystem) : Outcome :=
  match w.shareManager with
  | .error err => ⟨.error err, [], []⟩
  | .ok lhShareMgr =>
    if !isEnabling networkFS && lhShareMgr.status.state == ShareManagerStateStopped then
      if networkFS.status.state != NetworkFSStateDisabled then
        ⟨.error (.failure ("wait the previous operation (disable) to finish on " ++ networkFS.name)),
          [], []⟩
      else
        match updateLHVolumeAttachment w networkFS true with
        | (some err, ups) => ⟨.error err, ups, []⟩
        | (none, ups) =>
          let networkFSCpy :=
            { networkFS with
              status :=
                { networkFS.status with
                  state := NetworkFSStateEnabling
                  status := EndpointStatusNotReady
                  type := NetworkFSTypeNFS } }
          if networkFS ≠ networkFSCpy then ⟨updateStatus w networkFSCpy, ups, [networkFSCpy]⟩
          else enableResolve w networkFS lhShareMgr ups
    else enableResolve w networkFS lhShareMgr []

/-- The handler `OnNetworkFSChange`; `none` is the nil record. -/
def OnNetworkFSChange (w : World) (networkFS : Option NetworkFilesystem) : Outcome :=
  match networkFS with
  | none => ⟨.ok none, [], []⟩
  | some networkFS =>
    if networkFS.deletionTimestamp.isSome then ⟨.ok none, [], []⟩
    else if networkFS.spec.desiredState == networkFS.status.state then ⟨.ok none, [], []⟩
    else if networkFS.status.state == "" then
      let networkFSCpy :=
        { networkFS with
          status :=
            { state := NetworkFSStateUnknown, status := EndpointStatusUnknown,
              type := NetworkFSTypeNFS, endpoint := "", mountOpts := "", networkFSConds := [] } }
      ⟨updateStatus w networkFSCpy, [], [networkFSCpy]⟩
    else if networkFS.spec.desiredState == NetworkFSStateEnabled then enableNetworkFS w networkFS
    else if networkFS.spec.desiredState == NetworkFSStateDisabled then disableNetworkFS w networkFS
    else ⟨.ok none, [], []⟩

/-- The volume-attachment descriptor a run leaves in the store: the last accepted `Update`, or
the observed descriptor when none was issued or the store refused it. -/
def lhvaAfter (w : World) (o : Outcome) : Option VolumeAttachment :=
  match w.volumeAttachment with
  | .error _ => none
  | .ok lhva =>
    match w.volumeAttachmentUpdateErr with
    | some _ => some lhva
    | none => some (o.lhvaUpdates.getLast?.getD lhva)

/-- The ticket stored under `id`: the observed one when there is one, a new one otherwise. -/
def keptOrNew (m : GoMap (Option AttachmentTicket)) (id type nodeID : String) :
    Option AttachmentTicket :=
  match m.get id with
  | some t => t
  | none => some (newTicket id type nodeID)

/-! ## Successive runs -/

/-- The record a run leaves in the store: the last status write when the store accepts status
writes, the observed record otherwise. -/
def recordAfter (w : World) (networkFS : NetworkFilesystem) (o : Outcome) : NetworkFilesystem :=
  match w.updateStatusErr with
  | some _ => networkFS
  | none => o.statusWrites.getLast?.getD networkFS

/-- The store a run leaves behind: the share-manager, service, endpoints and backing volume are
untouched, the volume attachment is the one the run left. -/
def worldAfter (w : World) (o : Outcome) : World :=
  match lhvaAfter w o with
  | some lhva => { w with volumeAttachment := .ok lhva }
  | none => w

/-! ## Endpoint-sync reconciler (`pkg/controller/service/controller.go`) -/

/-- Modelled from the spec: `ConditionTypeNotReady`, the type of the NotReady condition, declared
in `pkg/apis/harvesterhci.io/v1beta1`. -/
def ConditionTypeNotReady : String := "NotReady"
/-- Modelled from the spec: `ConditionTypeEndpointChanged`, the type of the EndpointChanged
condition, declared in `pkg/apis/harvesterhci.io/v1beta1`. -/
def ConditionTypeEndpointChanged : String := "EndpointChanged"

/-- The service object delivered to `OnServicesChange`: the service with the metadata the
handler reads. -/
structure ServiceObject extends Service where
  name : String
  deletionTimestamp : Option Nat
deriving DecidableEq, Repr

/-- The resource store as seen by `OnServicesChange`: the answer of the `Get` on the record of
the service's name, whether `UpdateStatus` is accepted, the merge helper
`utils.UpdateNetworkFSConds`, and the successive readings of `metav1.Now()`. -/
structure ServiceWorld where
  networkFS : Except Error NetworkFilesystem
  updateStatusErr : Option Error
  updateNetworkFSConds : List NetworkFSCondition → NetworkFSCondition → List NetworkFSCondition
  now : Nat → Nat

/-- The result of a run of `OnServicesChange`: the error handed back (the service handed back is
always nil) and the `UpdateStatus` calls issued. -/
structure ServiceOutcome where
  err : Option Error
  statusWrites : List NetworkFilesystem
deriving DecidableEq, Repr

/-- The function `strings.HasPrefix`. -/
def HasPrefix (s pfx : String) : Bool :=
  pfx.data.isPrefixOf s.data

/-- The record `networkFSCpy` that `OnServicesChange` computes (lines 77-119). -/
def syncCpy (w : ServiceWorld) (networkFS : NetworkFilesystem) (service : ServiceObject) :
    NetworkFilesystem :=
  if service.spec.clusterIP == "" then
    { networkFS with
      status :=
        { networkFS.status with
          endpoint := ""
          status := EndpointStatusNotReady
          type := NetworkFSTypeNFS
          state := NetworkFSStateEnabling
          networkFSConds :=
            w.updateNetworkFSConds networkFS.status.networkFSConds
              { type := ConditionTypeNotReady, status := ConditionTrue,
                lastTransitionTime := w.now 0, reason := "Service is not ready",
                message := "Service did not contain the corresponding address" } } }
  else
    let changed := networkFS.status.endpoint != service.spec.clusterIP
    let conds :=
      if changed then
        let changedMsg :=
          if networkFS.status.endpoint != "" then
            "Endpoint address is changed, previous address is " ++ networkFS.status.endpoint
          else "Endpoint address is initialized with " ++ service.spec.clusterIP
        w.updateNetworkFSConds networkFS.status.networkFSConds
          { type := ConditionTypeEndpointChanged, status := ConditionTrue,
            lastTransitionTime := w.now 0, reason := "Endpoint is changed",
            message := changedMsg }
      else networkFS.status.networkFSConds
    { networkFS with
      status :=
        { networkFS.status with
          endpoint := service.spec.clusterIP
          status := EndpointStatusReady
          type := NetworkFSTypeNFS
          state := NetworkFSStateEnabling
          networkFSConds :=
            w.updateNetworkFSConds conds (readyCondition (w.now (if changed then 1 else 0))) } }

/-- The handler `OnServicesChange`; `none` is the nil service. -/
def OnServicesChange (w : ServiceWorld) (service : Option ServiceObject) : ServiceOutcome :=
  match service with
  | none => ⟨none, []⟩
  | some service =>
    if service.deletionTimestamp.isSome then ⟨none, []⟩
    else if !HasPrefix service.name "pvc-" then ⟨none, []⟩
    else
      match w.networkFS with
      | .error err => ⟨some err, []⟩
      | .ok networkFS =>
        if networkFS.spec.desiredState != NetworkFSStateEnabled then ⟨none, []⟩
        else if service.spec.clusterIP == ClusterIPNone then ⟨none, []⟩
        else if networkFS ≠ syncCpy w networkFS service then
          match w.updateStatusErr with
          | some err => ⟨some err, [syncCpy w networkFS service]⟩
          | none => ⟨none, [syncCpy w networkFS service]⟩
        else ⟨none, []⟩

/-! ## Sample inputs -/

/-- A sample merge helper: appends the condition. -/
def sampleUpdateConds (conds : List NetworkFSCondition) (c : NetworkFSCondition) :
    List NetworkFSCondition :=
  conds ++ [c]

/-- A sample record named `pvc-1` with the given desired and observed state. -/
def sampleNetworkFS (desiredState state : String) : NetworkFilesystem :=
  { name := "pvc-1", deletionTimestamp := none,
    spec := { desiredState := desiredState, preferredNode := "node-1" },
    status :=
      { endpoint := "", status := EndpointStatusNotReady, state := state, type := NetworkFSTypeNFS,
        mountOpts := "", networkFSConds := [] } }

/-- A sample volume attachment of `pvc-1` holding the given tickets. -/
def sampleLHVA (tickets : GoMap (Option AttachmentTicket)) : VolumeAttachment :=
  { name := "pvc-1", spec := { attachmentTickets := tickets, volume := "pvc-1" } }

/-- Both canonical tickets of `pvc-1`. -/
def sampleTickets : List (String × Option AttachmentTicket) :=
  [("csi-pvc-1", some (newTicket "csi-pvc-1" AttacherTypeCSIAttacher "node-1")),
   ("share-manager-controller-pvc-1",
     some (newTicket "share-manager-controller-pvc-1" AttacherTypeShareManagerController "node-1"))]

/-- A third ticket, held by a backup job. -/
def sampleExtraTicket : String × Option AttachmentTicket :=
  ("backup-pvc-1", some (newTicket "backup-pvc-1" "backup-controller" "node-2"))

/-- A sample store: share manager in the given state, the given volume attachment, a service
with the given cluster address, the given endpoints and backing volume; every write accepted. -/
def sampleWorld (shareManagerState : String) (lhva : VolumeAttachment) (clusterIP : String)
    (endpoints : Endpoints) (pv : Except Error PersistentVolume) : World :=
  { shareManager := .ok ⟨⟨shareManagerState⟩⟩
    volumeAttachment := .ok lhva
    volumeAttachmentUpdateErr := none
    service := .ok ⟨⟨clusterIP⟩⟩
    endpoints := .ok endpoints
    persistentVolume := pv
    updateStatusErr := none
    updateNetworkFSConds := sampleUpdateConds
    now := 1700000000 }

/-- A backing volume declaring `nfsOptions`. -/
def samplePV (opts : String) : PersistentVolume :=
  ⟨⟨some ⟨some [("nfsOptions", opts)]⟩⟩⟩

/-- A store for `pvc-1`: share-manager Running, both tickets installed, cluster address
`10.0.0.5`, backing volume declaring `nfsOptions = vers=4.1`. -/
def sampleRunningWorld : World :=
  sampleWorld ShareManagerStateRunning (sampleLHVA (some sampleTickets)) "10.0.0.5" ⟨[]⟩
    (.ok (samplePV "vers=4.1"))

/-- The record `pvc-1` as written by a full enable in `sampleRunningWorld`. -/
def sampleEnabledRecord : NetworkFilesystem :=
  { name := "pvc-1", deletionTimestamp := none,
    spec := { desiredState := "Enabled", preferredNode := "node-1" },
    status :=
      { state := "Enabled", type := "NFS", status := "Ready", endpoint := "10.0.0.5",
        mountOpts := "vers=4.1",
        networkFSConds :=
          [{ type := "Ready", status := "True", lastTransitionTime := 1700000000,
             reason := "Endpoint is ready",
             message := "Endpoint contains the corresponding address" }] } }

/-- The record `pvc-1` as created: desired state Enabled, empty status. -/
def sampleColdRecord : NetworkFilesystem :=
  { name := "pvc-1", deletionTimestamp := none,
    spec := { desiredState := NetworkFSStateEnabled, preferredNode := "" },
    status :=
      { endpoint := "", status := "", state := "", type := "", mountOpts := "",
        networkFSConds := [] } }

/-- The record `sampleColdRecord` after its status was initialized. -/
def sampleUnknownRecord : NetworkFilesystem :=
  { sampleColdRecord with
    status :=
      { endpoint := "", status := EndpointStatusUnknown, state := NetworkFSStateUnknown,
        type := NetworkFSTypeNFS, mountOpts := "", networkFSConds := [] } }

/-- A store for `pvc-1` with the share-manager Running and a headless service backed by the
given endpoint subsets. -/
def sampleHeadlessWorld (subsets : List EndpointSubset) : World :=
  sampleWorld ShareManagerStateRunning (sampleLHVA (some sampleTickets)) ClusterIPNone ⟨subsets⟩
    (.ok (samplePV "vers=4.1"))

/-- A store for `pvc-1` as seen by `OnServicesChange`: the given record, every write
accepted. -/
def sampleServiceWorld (networkFS : NetworkFilesystem) : ServiceWorld :=
  { networkFS := .ok networkFS
    updateStatusErr := none
    updateNetworkFSConds := sampleUpdateConds
    now := fun i => 1700000000 + i }

/-- The service of `pvc-1` with the given cluster address. -/
def sampleService (clusterIP : String) : ServiceObject :=
  { spec := ⟨clusterIP⟩, name := "pvc-1", deletionTimestamp := none }

/-- A store for `pvc-1` with the share-manager Running, the cluster address `10.0.0.5` and the
given answer of the backing-volume `Get`. -/
def samplePVWorld (pv : Except Error PersistentVolume) : World :=
  sampleWorld ShareManagerStateRunning (sampleLHVA (some sampleTickets)) "10.0.0.5" ⟨[]⟩ pv

/-- The sample record `pvc-1` carrying a deletion marker. -/
def sampleDeletingNetworkFS (desiredState state : String) : NetworkFilesystem :=
  { sampleNetworkFS desiredState state with deletionTimestamp := some 1700000100 }

/-- A store for `pvc-1` with the share-manager Stopped and no ticket installed, in which every
volume-attachment update is accepted and every status write is refused. -/
def sampleRejectingWorld : World :=
  { sampleWorld ShareManagerStateStopped (sampleLHVA (some [])) "" ⟨[]⟩ (.ok (samplePV "")) with
    updateStatusErr := some (.failure "the object has been modified") }

/-! ## Go maps: deep equality -/

theorem optDeepEqual_refl {β : Type} (eq : β → β → Bool) (hrefl : ∀ b, eq b b = true)
    (a : Option β) : optDeepEqual eq a a = true := by
  cases a with
  | none => rfl
  | some b => exact hrefl b

theorem kvsDeepEqual_refl {β : Type} (eq : β → β → Bool) (hrefl : ∀ b, eq b b = true)
    (x : List (String × β)) : kvsDeepEqual eq x x = true := by
  unfold kvsDeepEqual
  rw [List.all_eq_true]
  intro k _
  exact optDeepEqual_refl eq hrefl _

theorem mapDeepEqual_refl {β : Type} (eq : β → β → Bool) (hrefl : ∀ b, eq b b = true)
    (m : GoMap β) : mapDeepEqual eq m m = true := by
  cases m with
  | none => rfl
  | some x => exact kvsDeepEqual_refl eq hrefl x

theorem AttachmentTicket.deepEqual_refl (t : AttachmentTicket) : t.deepEqual t = true := by
  simp [AttachmentTicket.deepEqual, mapDeepEqual_refl]

theorem ticketPtrDeepEqual_refl (t : Option AttachmentTicket) : ticketPtrDeepEqual t t = true :=
  optDeepEqual_refl _ AttachmentTicket.deepEqual_refl t

theorem mem_keys_iff_lookup_isSome {β : Type} (x : List (String × β)) (k : String) :
    k ∈ x.map Prod.fst ↔ (x.lookup k).isSome = true := by
  rw [List.lookup_isSome_iff]
  simp only [List.mem_map, beq_iff_eq]
  constructor
  · rintro ⟨p, hp, rfl⟩
    exact ⟨p, hp, rfl⟩
  · rintro ⟨p, hp, rfl⟩
    exact ⟨p, hp, rfl⟩

/-- The lookup of a non-empty association list, as a conditional. -/
theorem lookup_cons_ite {β : Type} (a k : String) (b : β) (es : List (String × β)) :
    ((k, b) :: es).lookup a = if a = k then some b else es.lookup a := by
  rw [List.lookup_cons]
  cases h : (a == k)
  · have hne : a ≠ k := by simpa using h
    simp [hne]
  · have heq : a = k := by simpa using h
    simp [heq]

/-- Deep equality of non-nil maps is pointwise agreement of the lookups. -/
theorem kvsDeepEqual_iff {β : Type} (eq : β → β → Bool) (x y : List (String × β)) :
    kvsDeepEqual eq x y = true ↔ ∀ k, optDeepEqual eq (x.lookup k) (y.lookup k) = true := by
  unfold kvsDeepEqual
  rw [List.all_eq_true]
  constructor
  · intro h k
    by_cases hk : k ∈ x.map Prod.fst ++ y.map Prod.fst
    · exact h k hk
    · rw [List.mem_append, not_or, mem_keys_iff_lookup_isSome, mem_keys_iff_lookup_isSome] at hk
      obtain ⟨hx, hy⟩ := hk
      simp only [Bool.not_eq_true, Option.not_isSome, Option.isNone_iff_eq_none] at hx hy
      rw [hx, hy]
      rfl
  · intro h k _
    exact h k

/-! ## Attachment ticket manager -/

theorem csiTicketID_ne_shareMgrTicketID (n : String) : csiTicketID n ≠ shareMgrTicketID n := by
  intro h
  have h2 := congrArg String.length h
  simp only [csiTicketID, shareMgrTicketID, String.length_append, Nat.add_right_cancel_iff] at h2
  exact absurd h2 (by decide)

/-- The node ID chosen at lines 230-233 is the preferred node, empty when there is none. -/
theorem attach_nodeID (p : String) : (if (p != "") = true then p else "") = p := by
  by_cases h : p = "" <;> simp [h]

/-- The ticket map `attachCpy` computes, written out. -/
theorem attachCpy_tickets (networkFS : NetworkFilesystem) (lhva : VolumeAttachment) :
    (attachCpy networkFS lhva).spec.attachmentTickets =
      some [(shareMgrTicketID networkFS.name,
              keptOrNew lhva.spec.attachmentTickets (shareMgrTicketID networkFS.name)
                AttacherTypeShareManagerController networkFS.spec.preferredNode),
            (csiTicketID networkFS.name,
              keptOrNew lhva.spec.attachmentTickets (csiTicketID networkFS.name)
                AttacherTypeCSIAttacher networkFS.spec.preferredNode)] := by
  have hne := csiTicketID_ne_shareMgrTicketID networkFS.name
  simp only [attachCpy, mapSet, keptOrNew, attach_nodeID, List.filter_nil, List.filter_cons]
  simp [hne]

/-- The lookups of the ticket map `attachCpy` computes. -/
theorem attachCpy_get (networkFS : NetworkFilesystem) (lhva : VolumeAttachment) (k : String) :
    (attachCpy networkFS lhva).spec.attachmentTickets.get k =
      if k = shareMgrTicketID networkFS.name then
        some (keptOrNew lhva.spec.attachmentTickets (shareMgrTicketID networkFS.name)
          AttacherTypeShareManagerController networkFS.spec.preferredNode)
      else if k = csiTicketID networkFS.name then
        some (keptOrNew lhva.spec.attachmentTickets (csiTicketID networkFS.name)
          AttacherTypeCSIAttacher networkFS.spec.preferredNode)
      else none := by
  rw [attachCpy_tickets]
  simp only [GoMap.get, lookup_cons_ite, List.lookup_nil]

/-- The descriptor `attachCpy` computes is deeply equal to the observed one exactly when every
lookup of the two ticket maps agrees. -/
theorem deepEqual_attachCpy_iff (networkFS : NetworkFilesystem) (lhva : VolumeAttachment) :
    lhva.deepEqual (attachCpy networkFS lhva) = true ↔
      ∀ k, optDeepEqual ticketPtrDeepEqual (lhva.spec.attachmentTickets.get k)
        ((attachCpy networkFS lhva).spec.attachmentTickets.get k) = true := by
  have hname : (attachCpy networkFS lhva).name = lhva.name := rfl
  have hvol : (attachCpy networkFS lhva).spec.volume = lhva.spec.volume := rfl
  simp only [VolumeAttachment.deepEqual, hname, hvol, beq_self_eq_true, Bool.true_and]
  cases hm : lhva.spec.attachmentTickets with
  | none =>
    rw [attachCpy_tickets]
    simp only [mapDeepEqual, GoMap.get]
    constructor
    · intro h
      exact absurd h (by simp)
    · intro h
      have := h (shareMgrTicketID networkFS.name)
      simp [optDeepEqual] at this
  | some kvs =>
    have hc := attachCpy_tickets networkFS lhva
    rw [hm] at hc
    have hm2 : (attachCpy networkFS lhva).spec.attachmentTickets = some
        [(shareMgrTicketID networkFS.name,
              keptOrNew (some kvs) (shareMgrTicketID networkFS.name)
                AttacherTypeShareManagerController networkFS.spec.preferredNode),
            (csiTicketID networkFS.name,
              keptOrNew (some kvs) (csiTicketID networkFS.name)
                AttacherTypeCSIAttacher networkFS.spec.preferredNode)] := by
      rw [← hc]
    rw [hm2]
    simp only [mapDeepEqual, GoMap.get]
    exact kvsDeepEqual_iff _ _ _

/-- C10 (attach ticket set). For every record, observed descriptor and store: the ticket map
computed by `doAttachLHVolumeAttachment` has exactly the keys `csi-<name>` and
`share-manager-controller-<name>`; under each of them it holds the observed ticket verbatim when
the observed map has one, and otherwise the new ticket with that ID, the CSI-attacher resp.
share-manager-controller type, the preferred node as node ID and the parameters
`disableFrontend: "false"`; the rest of the descriptor is the observed one; and an `Update` is
issued, carrying the computed descriptor, exactly when the computed descriptor is not deeply equal
to the observed one, which is the case exactly when some lookup of the two ticket maps differs. -/
theorem doAttachLHVolumeAttachment_ticket_set (w : World) (networkFS : NetworkFilesystem)
    (lhva : VolumeAttachment) :
    (∀ k, ((attachCpy networkFS lhva).spec.attachmentTickets.get k).isSome = true ↔
        (k = "csi-" ++ networkFS.name ∨ k = "share-manager-controller-" ++ networkFS.name))
    ∧ (∀ t, lhva.spec.attachmentTickets.get ("csi-" ++ networkFS.name) = some t →
        (attachCpy networkFS lhva).spec.attachmentTickets.get ("csi-" ++ networkFS.name) = some t)
    ∧ (lhva.spec.attachmentTickets.get ("csi-" ++ networkFS.name) = none →
        (attachCpy networkFS lhva).spec.attachmentTickets.get ("csi-" ++ networkFS.name) =
          some (some { id := "csi-" ++ networkFS.name, type := AttacherTypeCSIAttacher,
                       nodeID := networkFS.spec.preferredNode,
                       parameters := some [(AttachmentParameterDisableFrontend, "false")] }))
    ∧ (∀ t, lhva.spec.attachmentTickets.get ("share-manager-controller-" ++ networkFS.name) = some t →
        (attachCpy networkFS lhva).spec.attachmentTickets.get
          ("share-manager-controller-" ++ networkFS.name) = some t)
    ∧ (lhva.spec.attachmentTickets.get ("share-manager-controller-" ++ networkFS.name) = none →
        (attachCpy networkFS lhva).spec.attachmentTickets.get
            ("share-manager-controller-" ++ networkFS.name) =
          some (some { id := "share-manager-controller-" ++ networkFS.name,
                       type := AttacherTypeShareManagerController,
                       nodeID := networkFS.spec.preferredNode,
                       parameters := some [(AttachmentParameterDisableFrontend, "false")] }))
    ∧ (attachCpy networkFS lhva).name = lhva.name
    ∧ (attachCpy networkFS lhva).spec.volume = lhva.spec.volume
    ∧ (doAttachLHVolumeAttachment w networkFS lhva).2 =
        (if lhva.deepEqual (attachCpy networkFS lhva) = true then []
         else [attachCpy networkFS lhva])
    ∧ (lhva.deepEqual (attachCpy networkFS lhva) = true ↔
        ∀ k, optDeepEqual ticketPtrDeepEqual (lhva.spec.attachmentTickets.get k)
          ((attachCpy networkFS lhva).spec.attachmentTickets.get k) = true) := by
  have hne := csiTicketID_ne_shareMgrTicketID networkFS.name
  have hcsi : "csi-" ++ networkFS.name = csiTicketID networkFS.name := rfl
  have hsm : "share-manager-controller-" ++ networkFS.name = shareMgrTicketID networkFS.name := rfl
  rw [hcsi, hsm]
  refine ⟨?_, ?_, ?_, ?_, ?_, rfl, rfl, ?_, deepEqual_attachCpy_iff networkFS lhva⟩
  · intro k
    rw [attachCpy_get]
    by_cases h1 : k = shareMgrTicketID networkFS.name
    · simp [h1]
    · by_cases h2 : k = csiTicketID networkFS.name
      · simp [h2, hne]
      · simp [h1, h2]
  · intro t ht
    rw [attachCpy_get, if_neg hne, if_pos rfl, keptOrNew, ht]
  · intro ht
    rw [attachCpy_get, if_neg hne, if_pos rfl, keptOrNew, ht]
    rfl
  · intro t ht
    rw [attachCpy_get, if_pos rfl, keptOrNew, ht]
  · intro ht
    rw [attachCpy_get, if_pos rfl, keptOrNew, ht]
    rfl
  · cases h : lhva.deepEqual (attachCpy networkFS lhva) <;>
      simp [doAttachLHVolumeAttachment, h]

/-- C9 as stated fails: the observed map of `pvc-1` holds both canonical tickets and a third
one; the attach computation drops the third ticket and issues one `Update`. -/
theorem doAttachLHVolumeAttachment_extra_ticket_updates :
    ((sampleLHVA (some (sampleExtraTicket :: sampleTickets))).spec.attachmentTickets.get
        (csiTicketID "pvc-1")).isSome = true
    ∧ ((sampleLHVA (some (sampleExtraTicket :: sampleTickets))).spec.attachmentTickets.get
        (shareMgrTicketID "pvc-1")).isSome = true
    ∧ (doAttachLHVolumeAttachment
        (sampleWorld ShareManagerStateStopped (sampleLHVA (some (sampleExtraTicket :: sampleTickets)))
          "" ⟨[]⟩ (.ok (samplePV "")))
        (sampleNetworkFS NetworkFSStateEnabled NetworkFSStateDisabled)
        (sampleLHVA (some (sampleExtraTicket :: sampleTickets)))).2
      = [sampleLHVA (some sampleTickets.reverse)] := by
  decide

/-- C9, amended. For every record and every observed descriptor whose ticket map holds tickets
under exactly the two canonical IDs `csi-<name>` and `share-manager-controller-<name>` and under
no other ID, `doAttachLHVolumeAttachment` issues no `Update` and hands back no error. -/
theorem doAttachLHVolumeAttachment_no_update (w : World) (networkFS : NetworkFilesystem)
    (lhva : VolumeAttachment)
    (h : ∀ k, (lhva.spec.attachmentTickets.get k).isSome = true ↔
        (k = csiTicketID networkFS.name ∨ k = shareMgrTicketID networkFS.name)) :
    doAttachLHVolumeAttachment w networkFS lhva = (none, []) := by
  have hne := csiTicketID_ne_shareMgrTicketID networkFS.name
  have heq : lhva.deepEqual (attachCpy networkFS lhva) = true := by
    rw [deepEqual_attachCpy_iff]
    intro k
    rw [attachCpy_get]
    by_cases h1 : k = shareMgrTicketID networkFS.name
    · have hs := (h k).2 (Or.inr h1)
      rw [if_pos h1, h1] at *
      obtain ⟨t, ht⟩ := Option.isSome_iff_exists.1 hs
      rw [keptOrNew, ht]
      exact ticketPtrDeepEqual_refl t
    · by_cases h2 : k = csiTicketID networkFS.name
      · have hs := (h k).2 (Or.inl h2)
        rw [if_neg h1, if_pos h2, h2] at *
        obtain ⟨t, ht⟩ := Option.isSome_iff_exists.1 hs
        rw [keptOrNew, ht]
        exact ticketPtrDeepEqual_refl t
      · have hs : ¬ (lhva.spec.attachmentTickets.get k).isSome = true := fun hk =>
          (h k).1 hk |>.elim h2 h1
        rw [if_neg h1, if_neg h2]
        simp only [Bool.not_eq_true, Option.not_isSome, Option.isNone_iff_eq_none] at hs
        rw [hs]
        rfl
  simp [doAttachLHVolumeAttachment, heq]

/-- The amended C9 at the record `pvc-1` whose descriptor holds exactly the two canonical
tickets. -/
theorem doAttachLHVolumeAttachment_no_update_witness :
    doAttachLHVolumeAttachment
        (sampleWorld ShareManagerStateStopped (sampleLHVA (some sampleTickets)) "" ⟨[]⟩
          (.ok (samplePV "")))
        (sampleNetworkFS NetworkFSStateEnabled NetworkFSStateDisabled)
        (sampleLHVA (some sampleTickets)) = (none, []) :=
  doAttachLHVolumeAttachment_no_update _ _ _ (by
    intro k
    simp only [sampleLHVA, sampleTickets, GoMap.get, lookup_cons_ite, List.lookup_nil,
      sampleNetworkFS, csiTicketID, shareMgrTicketID]
    have e1 : "csi-" ++ "pvc-1" = "csi-pvc-1" := by decide
    have e2 : "share-manager-controller-" ++ "pvc-1" = "share-manager-controller-pvc-1" := by
      decide
    rw [e1, e2]
    by_cases h1 : k = "csi-pvc-1"
    · simp [h1]
    · by_cases h2 : k = "share-manager-controller-pvc-1"
      · simp [h2]
      · simp [h1, h2])

/-! ## Lifecycle reconciler -/

/-- C1 as stated fails: `pvc-1` has desired state Enabled and is observed Enabling, the
share-manager is Running, the service has the cluster address `10.0.0.5` and the backing volume
declares `nfsOptions = vers=4.1`, but the record carries a deletion marker; the handler skips
it (lines 54-57) and writes nothing. -/
theorem OnNetworkFSChange_full_enable_deleting :
    (sampleDeletingNetworkFS NetworkFSStateEnabled NetworkFSStateEnabling).spec.desiredState
        = NetworkFSStateEnabled
    ∧ (sampleDeletingNetworkFS NetworkFSStateEnabled NetworkFSStateEnabling).status.state ≠ ""
    ∧ (sampleDeletingNetworkFS NetworkFSStateEnabled NetworkFSStateEnabling).status.state
        ≠ NetworkFSStateEnabled
    ∧ OnNetworkFSChange sampleRunningWorld
        (some (sampleDeletingNetworkFS NetworkFSStateEnabled NetworkFSStateEnabling))
      = ⟨.ok none, [], []⟩ := by
  decide

/-- C1, amended. For every record that is not being deleted (no deletion marker) with desired
state Enabled whose observed state is initialized and not Enabled: if the share-manager is
Running, the service has the cluster address `ip`, neither empty nor headless, and the backing
volume declares `nfsOptions = o`, then `OnNetworkFSChange` issues exactly one status write, of
the record with `state=Enabled, type=NFS, endpointStatus=Ready, endpoint=ip, mountOptions=o` and
the previous conditions with a Ready/True condition folded in by the merge helper; it issues no
volume-attachment update and returns what the status write returns. -/
theorem OnNetworkFSChange_full_enable (w : World) (networkFS : NetworkFilesystem)
    (lhShareMgr : ShareManager) (service : Service) (pv : PersistentVolume)
    (csi : CSIPersistentVolumeSource) (ip o : String)
    (hlive : networkFS.deletionTimestamp = none)
    (hdesired : networkFS.spec.desiredState = NetworkFSStateEnabled)
    (hinit : networkFS.status.state ≠ "")
    (hstate : networkFS.status.state ≠ NetworkFSStateEnabled)
    (hsm : w.shareManager = .ok lhShareMgr)
    (hrunning : lhShareMgr.status.state = ShareManagerStateRunning)
    (hsvc : w.service = .ok service)
    (hip : service.spec.clusterIP = ip) (hassigned : ip ≠ "") (hheadless : ip ≠ ClusterIPNone)
    (hpv : w.persistentVolume = .ok pv) (hcsi : pv.spec.csi = some csi)
    (hopts : csi.volumeAttributes.get "nfsOptions" = some o) :
    (OnNetworkFSChange w (some networkFS)).statusWrites =
        [{ networkFS with
           status :=
             { state := NetworkFSStateEnabled, type := NetworkFSTypeNFS,
               status := EndpointStatusReady, endpoint := ip, mountOpts := o,
               networkFSConds :=
                 w.updateNetworkFSConds networkFS.status.networkFSConds
                   { type := ConditionTypeReady, status := ConditionTrue,
                     lastTransitionTime := w.now, reason := "Endpoint is ready",
                     message := "Endpoint contains the corresponding address" } } }]
    ∧ (OnNetworkFSChange w (some networkFS)).lhvaUpdates = []
    ∧ (OnNetworkFSChange w (some networkFS)).ret =
        updateStatus w
          { networkFS with
            status :=
              { state := NetworkFSStateEnabled, type := NetworkFSTypeNFS,
                status := EndpointStatusReady, endpoint := ip, mountOpts := o,
                networkFSConds :=
                  w.updateNetworkFSConds networkFS.status.networkFSConds
                    { type := ConditionTypeReady, status := ConditionTrue,
                      lastTransitionTime := w.now, reason := "Endpoint is ready",
                      message := "Endpoint contains the corresponding address" } } } := by
  have hds : ¬ NetworkFSStateEnabled = networkFS.status.state := fun h => hstate h.symm
  have hstop : ¬ ShareManagerStateRunning = ShareManagerStateStopped := by decide
  subst hip
  simp [OnNetworkFSChange, enableNetworkFS, enableResolve, enableFinish, getObj, getErr,
    readyCondition, hlive, hdesired, hds, hinit, hsm, hrunning, hstop, hsvc, hassigned, hheadless,
    hpv, hcsi, hopts]

/-- The amended C1 at the spec's scenario: `pvc-1` observed Enabling, share-manager Running, cluster address
`10.0.0.5`, mount options `vers=4.1`. -/
theorem OnNetworkFSChange_full_enable_witness :
    (OnNetworkFSChange
        (sampleWorld ShareManagerStateRunning (sampleLHVA (some sampleTickets)) "10.0.0.5" ⟨[]⟩
          (.ok (samplePV "vers=4.1")))
        (some (sampleNetworkFS NetworkFSStateEnabled NetworkFSStateEnabling))).statusWrites =
      [{ name := "pvc-1", deletionTimestamp := none,
         spec := { desiredState := "Enabled", preferredNode := "node-1" },
         status :=
           { state := "Enabled", type := "NFS", status := "Ready", endpoint := "10.0.0.5",
             mountOpts := "vers=4.1",
             networkFSConds :=
               [{ type := "Ready", status := "True", lastTransitionTime := 1700000000,
                  reason := "Endpoint is ready",
                  message := "Endpoint contains the corresponding address" }] } }] :=
  (OnNetworkFSChange_full_enable
    (sampleWorld ShareManagerStateRunning (sampleLHVA (some sampleTickets)) "10.0.0.5" ⟨[]⟩
      (.ok (samplePV "vers=4.1")))
    (sampleNetworkFS NetworkFSStateEnabled NetworkFSStateEnabling)
    ⟨⟨ShareManagerStateRunning⟩⟩ ⟨⟨"10.0.0.5"⟩⟩ (samplePV "vers=4.1")
    ⟨some [("nfsOptions", "vers=4.1")]⟩ "10.0.0.5" "vers=4.1"
    rfl rfl (by decide) (by decide) rfl rfl rfl rfl (by decide) (by decide) rfl rfl
    (by decide)).1

/-- C2 as stated fails: `pvc-1` with desired state Enabled is observed Enabled (initialized and
different from Disabled) while the share-manager is Stopped; the handler returns `(nil, nil)`,
not an error. -/
theorem OnNetworkFSChange_enabled_stopped_no_error :
    (sampleNetworkFS NetworkFSStateEnabled NetworkFSStateEnabled).spec.desiredState
        = NetworkFSStateEnabled
    ∧ (sampleNetworkFS NetworkFSStateEnabled NetworkFSStateEnabled).status.state ≠ ""
    ∧ (sampleNetworkFS NetworkFSStateEnabled NetworkFSStateEnabled).status.state
        ≠ NetworkFSStateDisabled
    ∧ OnNetworkFSChange
        (sampleWorld ShareManagerStateStopped (sampleLHVA (some [])) "" ⟨[]⟩ (.ok (samplePV "")))
        (some (sampleNetworkFS NetworkFSStateEnabled NetworkFSStateEnabled))
      = ⟨.ok none, [], []⟩ := by
  decide

/-- C2, amended. For every live record with desired state Enabled whose observed state is
initialized and different from Disabled and from Enabled: if the share-manager is Stopped, then
`OnNetworkFSChange` returns an error (wait for the share manager when the record is Enabling,
wait for the previous operation otherwise), writes no status and issues no volume-attachment
update. -/
theorem OnNetworkFSChange_enable_after_disable (w : World) (networkFS : NetworkFilesystem)
    (lhShareMgr : ShareManager)
    (hlive : networkFS.deletionTimestamp = none)
    (hdesired : networkFS.spec.desiredState = NetworkFSStateEnabled)
    (hinit : networkFS.status.state ≠ "")
    (hstate : networkFS.status.state ≠ NetworkFSStateDisabled)
    (henabled : networkFS.status.state ≠ NetworkFSStateEnabled)
    (hsm : w.shareManager = .ok lhShareMgr)
    (hstopped : lhShareMgr.status.state = ShareManagerStateStopped) :
    (OnNetworkFSChange w (some networkFS)).ret =
        .error (.failure
          (if networkFS.status.state = NetworkFSStateEnabling then
            "wait the share manager " ++ networkFS.name ++ " to be running"
           else "wait the previous operation (disable) to finish on " ++ networkFS.name))
    ∧ (OnNetworkFSChange w (some networkFS)).statusWrites = []
    ∧ (OnNetworkFSChange w (some networkFS)).lhvaUpdates = [] := by
  have hds : ¬ NetworkFSStateEnabled = networkFS.status.state := fun h => henabled h.symm
  have hstop : ¬ ShareManagerStateStopped = ShareManagerStateRunning := by decide
  have c1 : ¬ NetworkFSStateEnabled = NetworkFSStateEnabling := by decide
  have c2 : ¬ NetworkFSStateEnabling = "" := by decide
  by_cases hen : networkFS.status.state = NetworkFSStateEnabling
  · simp [OnNetworkFSChange, enableNetworkFS, enableResolve, isEnabling, hlive, hdesired,
      hsm, hstopped, hstop, hen, c1, c2]
  · simp [OnNetworkFSChange, enableNetworkFS, isEnabling, hlive, hdesired, hds, hinit, hsm,
      hstopped, hstate, hen]

/-- The amended C2 at `pvc-1` observed Disabling with the share-manager Stopped. -/
theorem OnNetworkFSChange_enable_after_disable_witness :
    (OnNetworkFSChange
        (sampleWorld ShareManagerStateStopped (sampleLHVA (some [])) "" ⟨[]⟩ (.ok (samplePV "")))
        (some (sampleNetworkFS NetworkFSStateEnabled NetworkFSStateDisabling))).ret =
      .error (.failure "wait the previous operation (disable) to finish on pvc-1")
    ∧ (OnNetworkFSChange
        (sampleWorld ShareManagerStateStopped (sampleLHVA (some [])) "" ⟨[]⟩ (.ok (samplePV "")))
        (some (sampleNetworkFS NetworkFSStateEnabled NetworkFSStateDisabling))).statusWrites = []
    ∧ (OnNetworkFSChange
        (sampleWorld ShareManagerStateStopped (sampleLHVA (some [])) "" ⟨[]⟩ (.ok (samplePV "")))
        (some (sampleNetworkFS NetworkFSStateEnabled NetworkFSStateDisabling))).lhvaUpdates = [] :=
  OnNetworkFSChange_enable_after_disable
    (sampleWorld ShareManagerStateStopped (sampleLHVA (some [])) "" ⟨[]⟩ (.ok (samplePV "")))
    (sampleNetworkFS NetworkFSStateEnabled NetworkFSStateDisabling) ⟨⟨ShareManagerStateStopped⟩⟩
    rfl rfl (by decide) (by decide) (by decide) rfl rfl

/-- The final step of `enableNetworkFS` writes nothing but `state=Enabled`. -/
theorem enableFinish_writes (w : World) (networkFSCpy : NetworkFilesystem)
    (ups : List VolumeAttachment) (written : NetworkFilesystem)
    (hw : written ∈ (enableFinish w networkFSCpy ups).statusWrites) :
    written.status.state = NetworkFSStateEnabled := by
  unfold enableFinish at hw
  split at hw
  · simp at hw
  · dsimp only at hw
    split at hw
    · simp at hw
    · simp only [List.mem_singleton] at hw
      rw [hw]

/-- The address resolution of `enableNetworkFS` writes nothing but `state=Enabled`. -/
theorem enableResolve_writes (w : World) (networkFS : NetworkFilesystem)
    (lhShareMgr : ShareManager) (ups : List VolumeAttachment) (written : NetworkFilesystem)
    (hw : written ∈ (enableResolve w networkFS lhShareMgr ups).statusWrites) :
    written.status.state = NetworkFSStateEnabled := by
  unfold enableResolve at hw
  split at hw
  · simp at hw
  · split at hw
    · simp at hw
    · split at hw
      · split at hw
        · simp at hw
        · exact enableFinish_writes _ _ _ _ hw
      · dsimp only at hw
        split at hw
        · simp at hw
        · split at hw
          · simp at hw
          · split at hw
            · simp at hw
            · split at hw
              · simp at hw
              · split at hw
                · simp at hw
                · exact enableFinish_writes _ _ _ _ hw

/-- What `enableNetworkFS` writes: Enabling from Disabled, or Enabled. -/
theorem enableNetworkFS_writes (w : World) (networkFS : NetworkFilesystem)
    (written : NetworkFilesystem) (hw : written ∈ (enableNetworkFS w networkFS).statusWrites) :
    (networkFS.status.state = NetworkFSStateDisabled
        ∧ written.status.state = NetworkFSStateEnabling)
    ∨ written.status.state = NetworkFSStateEnabled := by
  unfold enableNetworkFS at hw
  split at hw
  · simp at hw
  · split at hw
    · split at hw
      · simp at hw
      · rename_i hdis
        have hdis2 : networkFS.status.state = NetworkFSStateDisabled := by simpa using hdis
        split at hw
        · simp at hw
        · dsimp only at hw
          split at hw
          · simp only [List.mem_singleton] at hw
            left
            exact ⟨hdis2, by rw [hw]⟩
          · right
            exact enableResolve_writes _ _ _ _ _ hw
    · right
      exact enableResolve_writes _ _ _ _ _ hw

/-- What `disableNetworkFS` writes: Disabling, from a state other than Disabling. -/
theorem disableNetworkFS_writes (w : World) (networkFS : NetworkFilesystem)
    (written : NetworkFilesystem) (hw : written ∈ (disableNetworkFS w networkFS).statusWrites) :
    networkFS.status.state ≠ NetworkFSStateDisabling
      ∧ written.status.state = NetworkFSStateDisabling := by
  unfold disableNetworkFS at hw
  split at hw
  · rename_i hnd
    have hnd2 : networkFS.status.state ≠ NetworkFSStateDisabling := by
      simpa [isDisabling] using hnd
    split at hw
    · simp at hw
    · dsimp only at hw
      split at hw
      · simp only [List.mem_singleton] at hw
        exact ⟨hnd2, by rw [hw]⟩
      · simp at hw
  · simp at hw

/-- What `OnNetworkFSChange` writes, by observed state: Unknown on an uninitialized record,
Enabling on a Disabled one, and otherwise Enabled or Disabling; never Disabled. -/
theorem OnNetworkFSChange_written_pairs (w : World) (networkFS written : NetworkFilesystem)
    (hw : written ∈ (OnNetworkFSChange w (some networkFS)).statusWrites) :
    ((networkFS.status.state = "" ∧ written.status.state = NetworkFSStateUnknown)
      ∨ (networkFS.status.state = NetworkFSStateDisabled
          ∧ written.status.state = NetworkFSStateEnabling)
      ∨ (networkFS.status.state ≠ "" ∧ networkFS.status.state ≠ NetworkFSStateEnabled
          ∧ written.status.state = NetworkFSStateEnabled)
      ∨ (networkFS.status.state ≠ "" ∧ networkFS.status.state ≠ NetworkFSStateDisabled
          ∧ networkFS.status.state ≠ NetworkFSStateDisabling
          ∧ written.status.state = NetworkFSStateDisabling))
    ∧ written.status.state ≠ NetworkFSStateDisabled := by
  have d1 : NetworkFSStateUnknown ≠ NetworkFSStateDisabled := by decide
  have d2 : NetworkFSStateEnabling ≠ NetworkFSStateDisabled := by decide
  have d3 : NetworkFSStateEnabled ≠ NetworkFSStateDisabled := by decide
  have d4 : NetworkFSStateDisabling ≠ NetworkFSStateDisabled := by decide
  unfold OnNetworkFSChange at hw
  dsimp only at hw
  split at hw
  · simp at hw
  · split at hw
    · simp at hw
    · rename_i hne
      split at hw
      · rename_i hempty
        have hempty2 : networkFS.status.state = "" := by simpa using hempty
        simp only [List.mem_singleton] at hw
        have hst : written.status.state = NetworkFSStateUnknown := by rw [hw]
        exact ⟨Or.inl ⟨hempty2, hst⟩, by rw [hst]; exact d1⟩
      · rename_i hinit
        have hinit2 : networkFS.status.state ≠ "" := by simpa using hinit
        split at hw
        · rename_i hen
          have hen2 : networkFS.spec.desiredState = NetworkFSStateEnabled := by simpa using hen
          have hne2 : networkFS.status.state ≠ NetworkFSStateEnabled := by
            intro h
            apply hne
            simp [hen2, h]
          rcases enableNetworkFS_writes w networkFS written hw with ⟨h1, h2⟩ | h
          · exact ⟨Or.inr (Or.inl ⟨h1, h2⟩), by rw [h2]; exact d2⟩
          · exact ⟨Or.inr (Or.inr (Or.inl ⟨hinit2, hne2, h⟩)), by rw [h]; exact d3⟩
        · split at hw
          · rename_i hdis
            have hdis2 : networkFS.spec.desiredState = NetworkFSStateDisabled := by
              simpa using hdis
            have hne2 : networkFS.status.state ≠ NetworkFSStateDisabled := by
              intro h
              apply hne
              simp [hdis2, h]
            obtain ⟨h1, h2⟩ := disableNetworkFS_writes w networkFS written hw
            exact ⟨Or.inr (Or.inr (Or.inr ⟨hinit2, hne2, h1, h2⟩)), by rw [h2]; exact d4⟩
          · simp at hw

/-- C3 as stated fails. `pvc-1` is observed Unknown, right after its status was initialized,
with desired state Disabled: the handler clears the tickets and writes `state=Disabling` from
Unknown. `pvc-1` is observed Enabling and its desired state is set back to Disabled before the
enable completed: the handler writes `state=Disabling` from Enabling. The only guard of
`disableNetworkFS` is that the record is not already Disabling; neither pair is in the claim's
list. -/
theorem OnNetworkFSChange_disabling_off_list :
    (sampleNetworkFS NetworkFSStateDisabled NetworkFSStateUnknown).status.state
        = NetworkFSStateUnknown
    ∧ (OnNetworkFSChange sampleRunningWorld
          (some (sampleNetworkFS NetworkFSStateDisabled NetworkFSStateUnknown))).statusWrites
      = [sampleNetworkFS NetworkFSStateDisabled NetworkFSStateDisabling]
    ∧ (sampleNetworkFS NetworkFSStateDisabled NetworkFSStateEnabling).status.state
        = NetworkFSStateEnabling
    ∧ (OnNetworkFSChange sampleRunningWorld
          (some (sampleNetworkFS NetworkFSStateDisabled NetworkFSStateEnabling))).statusWrites
      = [sampleNetworkFS NetworkFSStateDisabled NetworkFSStateDisabling] := by
  decide

/-- C3, amended. For every record and every state of the external resources, whenever
`OnNetworkFSChange` writes a status whose state is other than Enabled, the pair (observed
state, written state) is one of: uninitialized to Unknown; Disabled to Enabling; any
initialized state other than Disabled and Disabling to Disabling. In particular it writes
Enabling only from Disabled and never writes Disabled. From which states Enabled is written is
left out of this statement. -/
theorem OnNetworkFSChange_transitions (w : World) (networkFS written : NetworkFilesystem)
    (hw : written ∈ (OnNetworkFSChange w (some networkFS)).statusWrites)
    (hne : written.status.state ≠ NetworkFSStateEnabled) :
    ((networkFS.status.state = "" ∧ written.status.state = NetworkFSStateUnknown)
      ∨ (networkFS.status.state = NetworkFSStateDisabled
          ∧ written.status.state = NetworkFSStateEnabling)
      ∨ (networkFS.status.state ≠ "" ∧ networkFS.status.state ≠ NetworkFSStateDisabled
          ∧ networkFS.status.state ≠ NetworkFSStateDisabling
          ∧ written.status.state = NetworkFSStateDisabling))
    ∧ written.status.state ≠ NetworkFSStateDisabled := by
  obtain ⟨hpair, hnd⟩ := OnNetworkFSChange_written_pairs w networkFS written hw
  refine ⟨?_, hnd⟩
  rcases hpair with h | h | h | h
  · exact Or.inl h
  · exact Or.inr (Or.inl h)
  · exact absurd h.2.2 hne
  · exact Or.inr (Or.inr h)

/-- The amended C3 at `pvc-1` observed Enabling with desired state Disabled. -/
theorem OnNetworkFSChange_transitions_witness :
    (((sampleNetworkFS NetworkFSStateDisabled NetworkFSStateEnabling).status.state = ""
        ∧ (sampleNetworkFS NetworkFSStateDisabled NetworkFSStateDisabling).status.state
          = NetworkFSStateUnknown)
      ∨ ((sampleNetworkFS NetworkFSStateDisabled NetworkFSStateEnabling).status.state
            = NetworkFSStateDisabled
          ∧ (sampleNetworkFS NetworkFSStateDisabled NetworkFSStateDisabling).status.state
            = NetworkFSStateEnabling)
      ∨ ((sampleNetworkFS NetworkFSStateDisabled NetworkFSStateEnabling).status.state ≠ ""
          ∧ (sampleNetworkFS NetworkFSStateDisabled NetworkFSStateEnabling).status.state
            ≠ NetworkFSStateDisabled
          ∧ (sampleNetworkFS NetworkFSStateDisabled NetworkFSStateEnabling).status.state
            ≠ NetworkFSStateDisabling
          ∧ (sampleNetworkFS NetworkFSStateDisabled NetworkFSStateDisabling).status.state
            = NetworkFSStateDisabling))
    ∧ (sampleNetworkFS NetworkFSStateDisabled NetworkFSStateDisabling).status.state
      ≠ NetworkFSStateDisabled :=
  OnNetworkFSChange_transitions sampleRunningWorld
    (sampleNetworkFS NetworkFSStateDisabled NetworkFSStateEnabling)
    (sampleNetworkFS NetworkFSStateDisabled NetworkFSStateDisabling)
    (by decide) (by decide)

/-- The handler promotes past the chain of line 78: `pvc-1` is observed Disabling with desired
state Enabled, the tickets are already cleared and the share-manager is still Running; the
handler writes `state=Enabled` straight from Disabling and reinstalls no ticket, although line
118 says an enable waits for the previous disable to finish. The same run from Disabled writes
Enabled as well. -/
theorem OnNetworkFSChange_enabled_from_disabling :
    ((OnNetworkFSChange
          (sampleWorld ShareManagerStateRunning (sampleLHVA (some [])) "10.0.0.5" ⟨[]⟩
            (.ok (samplePV "vers=4.1")))
          (some (sampleNetworkFS NetworkFSStateEnabled NetworkFSStateDisabling))).statusWrites.map
        fun r => r.status.state) = [NetworkFSStateEnabled]
    ∧ (OnNetworkFSChange
          (sampleWorld ShareManagerStateRunning (sampleLHVA (some [])) "10.0.0.5" ⟨[]⟩
            (.ok (samplePV "vers=4.1")))
          (some (sampleNetworkFS NetworkFSStateEnabled NetworkFSStateDisabling))).lhvaUpdates = []
    ∧ ((OnNetworkFSChange sampleRunningWorld
          (some (sampleNetworkFS NetworkFSStateEnabled NetworkFSStateDisabled))).statusWrites.map
        fun r => r.status.state) = [NetworkFSStateEnabled] := by
  decide

/-- Deeply equal lookup results are both present or both absent. -/
theorem optDeepEqual_isSome {β : Type} (eq : β → β → Bool) (a b : Option β)
    (h : optDeepEqual eq a b = true) : a.isSome = b.isSome := by
  cases a <;> cases b <;> simp_all [optDeepEqual]

/-- The ticket map `attachCpy` computes has exactly the two canonical keys. -/
theorem attachCpy_isSome_iff (networkFS : NetworkFilesystem) (lhva : VolumeAttachment)
    (k : String) :
    ((attachCpy networkFS lhva).spec.attachmentTickets.get k).isSome = true ↔
      (k = csiTicketID networkFS.name ∨ k = shareMgrTicketID networkFS.name) := by
  have hne := csiTicketID_ne_shareMgrTicketID networkFS.name
  rw [attachCpy_get]
  by_cases h1 : k = shareMgrTicketID networkFS.name
  · simp [h1]
  · by_cases h2 : k = csiTicketID networkFS.name
    · simp [h2, hne]
    · simp [h1, h2]

/-- A descriptor deeply equal to its detached copy has the empty, non-nil ticket map. -/
theorem tickets_of_deepEqual_detachCpy (lhva : VolumeAttachment)
    (h : lhva.deepEqual (detachCpy lhva) = true) : lhva.spec.attachmentTickets = some [] := by
  simp only [VolumeAttachment.deepEqual, detachCpy, Bool.and_eq_true] at h
  obtain ⟨_, hm⟩ := h
  cases ht : lhva.spec.attachmentTickets with
  | none =>
    rw [ht] at hm
    simp [mapDeepEqual] at hm
  | some kvs =>
    rw [ht] at hm
    cases kvs with
    | nil => rfl
    | cons e rest =>
      obtain ⟨k, v⟩ := e
      simp only [mapDeepEqual, kvsDeepEqual, List.map_cons, List.map_nil, List.append_nil,
        List.all_cons, Bool.and_eq_true, List.lookup_cons_self, List.lookup_nil] at hm
      exact absurd hm.1 (by simp [optDeepEqual])

/-- The ticket kept for an ID the observed map already holds. -/
theorem keptOrNew_of_some (m : GoMap (Option AttachmentTicket)) (id type nodeID : String)
    (t : Option AttachmentTicket) (h : m.get id = some t) : keptOrNew m id type nodeID = t := by
  rw [keptOrNew, h]

/-- The ticket made for an ID the observed map does not hold. -/
theorem keptOrNew_of_none (m : GoMap (Option AttachmentTicket)) (id type nodeID : String)
    (h : m.get id = none) :
    keptOrNew m id type nodeID =
      some { id := id, type := type, nodeID := nodeID,
             parameters := some [(AttachmentParameterDisableFrontend, "false")] } := by
  rw [keptOrNew, h]
  rfl

/-- The ticket `attachCpy` stores under the CSI ID. -/
theorem attachCpy_get_csi (networkFS : NetworkFilesystem) (lhva : VolumeAttachment) :
    (attachCpy networkFS lhva).spec.attachmentTickets.get (csiTicketID networkFS.name) =
      some (keptOrNew lhva.spec.attachmentTickets (csiTicketID networkFS.name)
        AttacherTypeCSIAttacher networkFS.spec.preferredNode) := by
  rw [attachCpy_get, if_neg (csiTicketID_ne_shareMgrTicketID networkFS.name), if_pos rfl]

/-- The ticket `attachCpy` stores under the share-manager ID. -/
theorem attachCpy_get_shareMgr (networkFS : NetworkFilesystem) (lhva : VolumeAttachment) :
    (attachCpy networkFS lhva).spec.attachmentTickets.get (shareMgrTicketID networkFS.name) =
      some (keptOrNew lhva.spec.attachmentTickets (shareMgrTicketID networkFS.name)
        AttacherTypeShareManagerController networkFS.spec.preferredNode) := by
  rw [attachCpy_get, if_pos rfl]

/-- A lookup deeply equal to a present one is present. -/
theorem optDeepEqual_ne_none {β : Type} (eq : β → β → Bool) (a : Option β) (b : β)
    (h : optDeepEqual eq a (some b) = true) : a ≠ none := by
  intro ha
  rw [ha] at h
  simp [optDeepEqual] at h

/-- The descriptor the attach step leaves in the store, whether it was written or found deeply
equal: under each canonical ID it holds the observed ticket when there was one and the new
ticket otherwise, and it holds no other ticket. -/
theorem attach_left_tickets (networkFS : NetworkFilesystem) (lhva va : VolumeAttachment)
    (hva : va = lhva ∧ lhva.deepEqual (attachCpy networkFS lhva) = true
      ∨ va = attachCpy networkFS lhva) :
    (∀ k, (va.spec.attachmentTickets.get k).isSome = true ↔
        (k = csiTicketID networkFS.name ∨ k = shareMgrTicketID networkFS.name))
    ∧ (∀ t, lhva.spec.attachmentTickets.get (csiTicketID networkFS.name) = some t →
        va.spec.attachmentTickets.get (csiTicketID networkFS.name) = some t)
    ∧ (lhva.spec.attachmentTickets.get (csiTicketID networkFS.name) = none →
        va.spec.attachmentTickets.get (csiTicketID networkFS.name) =
          some (some { id := csiTicketID networkFS.name, type := AttacherTypeCSIAttacher,
                       nodeID := networkFS.spec.preferredNode,
                       parameters := some [(AttachmentParameterDisableFrontend, "false")] }))
    ∧ (∀ t, lhva.spec.attachmentTickets.get (shareMgrTicketID networkFS.name) = some t →
        va.spec.attachmentTickets.get (shareMgrTicketID networkFS.name) = some t)
    ∧ (lhva.spec.attachmentTickets.get (shareMgrTicketID networkFS.name) = none →
        va.spec.attachmentTickets.get (shareMgrTicketID networkFS.name) =
          some (some { id := shareMgrTicketID networkFS.name,
                       type := AttacherTypeShareManagerController,
                       nodeID := networkFS.spec.preferredNode,
                       parameters := some [(AttachmentParameterDisableFrontend, "false")] }))
    ∧ va.name = lhva.name ∧ va.spec.volume = lhva.spec.volume := by
  rcases hva with ⟨rfl, hde⟩ | rfl
  · have hall := (deepEqual_attachCpy_iff networkFS va).1 hde
    refine ⟨?_, fun t ht => ht, ?_, fun t ht => ht, ?_, rfl, rfl⟩
    · intro k
      rw [optDeepEqual_isSome _ _ _ (hall k)]
      exact attachCpy_isSome_iff networkFS va k
    · intro hnone
      have h := hall (csiTicketID networkFS.name)
      rw [attachCpy_get_csi] at h
      exact absurd hnone (optDeepEqual_ne_none _ _ _ h)
    · intro hnone
      have h := hall (shareMgrTicketID networkFS.name)
      rw [attachCpy_get_shareMgr] at h
      exact absurd hnone (optDeepEqual_ne_none _ _ _ h)
  · refine ⟨attachCpy_isSome_iff networkFS lhva, ?_, ?_, ?_, ?_, rfl, rfl⟩
    · intro t ht
      rw [attachCpy_get_csi, keptOrNew_of_some _ _ _ _ t ht]
    · intro hnone
      rw [attachCpy_get_csi, keptOrNew_of_none _ _ _ _ hnone]
    · intro t ht
      rw [attachCpy_get_shareMgr, keptOrNew_of_some _ _ _ _ t ht]
    · intro hnone
      rw [attachCpy_get_shareMgr, keptOrNew_of_none _ _ _ _ hnone]

/-- C4 as stated fails, in two ways. `pvc-1` has desired state Enabled and is observed Disabled,
the share-manager is Stopped and the volume-attachment fetch and update succeed. When the
record carries a deletion marker the handler skips it (lines 54-57): no ticket is installed and
nothing is written. When the store refuses the status write, the tickets are installed and the
write is issued, but the handler returns the store's error, not the written record. -/
theorem OnNetworkFSChange_begin_enable_fails :
    (sampleDeletingNetworkFS NetworkFSStateEnabled NetworkFSStateDisabled).spec.desiredState
        = NetworkFSStateEnabled
    ∧ (sampleDeletingNetworkFS NetworkFSStateEnabled NetworkFSStateDisabled).status.state
        = NetworkFSStateDisabled
    ∧ OnNetworkFSChange
        (sampleWorld ShareManagerStateStopped (sampleLHVA (some [])) "" ⟨[]⟩ (.ok (samplePV "")))
        (some (sampleDeletingNetworkFS NetworkFSStateEnabled NetworkFSStateDisabled))
      = ⟨.ok none, [], []⟩
    ∧ sampleRejectingWorld.volumeAttachmentUpdateErr = none
    ∧ OnNetworkFSChange sampleRejectingWorld
        (some (sampleNetworkFS NetworkFSStateEnabled NetworkFSStateDisabled))
      = ⟨.error (.failure "the object has been modified"),
          [sampleLHVA (some sampleTickets.reverse)],
          [sampleNetworkFS NetworkFSStateEnabled NetworkFSStateEnabling]⟩ := by
  decide

/-- C4, amended. For every record that is not being deleted (no deletion marker) with desired
state Enabled observed Disabled: if the share-manager is Stopped and the volume-attachment
fetch and update succeed, then `OnNetworkFSChange` issues the attach update when the observed
descriptor differs from the computed one, so that the descriptor left in the store holds,
under each of the IDs `csi-<name>` and `share-manager-controller-<name>`, the observed ticket
when there was one and otherwise the new ticket with that ID, the CSI-attacher resp.
share-manager-controller type, the preferred node and the parameters `disableFrontend:
"false"`, and holds no other ticket; it issues exactly one status write, of the record with
`state=Enabling, endpointStatus=NotReady, type=NFS` and every other field as observed; and it
returns what that status write returns, which is the written record without error when the
store accepts the write, without reaching the share-manager-Running check. -/
theorem OnNetworkFSChange_begin_enable (w : World) (networkFS : NetworkFilesystem)
    (lhShareMgr : ShareManager) (lhva : VolumeAttachment)
    (hlive : networkFS.deletionTimestamp = none)
    (hdesired : networkFS.spec.desiredState = NetworkFSStateEnabled)
    (hstate : networkFS.status.state = NetworkFSStateDisabled)
    (hsm : w.shareManager = .ok lhShareMgr)
    (hstopped : lhShareMgr.status.state = ShareManagerStateStopped)
    (hva : w.volumeAttachment = .ok lhva)
    (hupd : w.volumeAttachmentUpdateErr = none) :
    (OnNetworkFSChange w (some networkFS)).lhvaUpdates =
        (if lhva.deepEqual (attachCpy networkFS lhva) = true then []
         else [attachCpy networkFS lhva])
    ∧ (∃ va, lhvaAfter w (OnNetworkFSChange w (some networkFS)) = some va
        ∧ (∀ k, (va.spec.attachmentTickets.get k).isSome = true ↔
            (k = "csi-" ++ networkFS.name ∨ k = "share-manager-controller-" ++ networkFS.name))
        ∧ (∀ t, lhva.spec.attachmentTickets.get ("csi-" ++ networkFS.name) = some t →
            va.spec.attachmentTickets.get ("csi-" ++ networkFS.name) = some t)
        ∧ (lhva.spec.attachmentTickets.get ("csi-" ++ networkFS.name) = none →
            va.spec.attachmentTickets.get ("csi-" ++ networkFS.name) =
              some (some { id := "csi-" ++ networkFS.name, type := AttacherTypeCSIAttacher,
                           nodeID := networkFS.spec.preferredNode,
                           parameters := some [(AttachmentParameterDisableFrontend, "false")] }))
        ∧ (∀ t, lhva.spec.attachmentTickets.get ("share-manager-controller-" ++ networkFS.name)
              = some t →
            va.spec.attachmentTickets.get ("share-manager-controller-" ++ networkFS.name)
              = some t)
        ∧ (lhva.spec.attachmentTickets.get ("share-manager-controller-" ++ networkFS.name)
              = none →
            va.spec.attachmentTickets.get ("share-manager-controller-" ++ networkFS.name) =
              some (some { id := "share-manager-controller-" ++ networkFS.name,
                           type := AttacherTypeShareManagerController,
                           nodeID := networkFS.spec.preferredNode,
                           parameters := some [(AttachmentParameterDisableFrontend, "false")] }))
        ∧ va.name = lhva.name ∧ va.spec.volume = lhva.spec.volume)
    ∧ (OnNetworkFSChange w (some networkFS)).statusWrites =
        [{ networkFS with
           status :=
             { networkFS.status with
               state := NetworkFSStateEnabling
               status := EndpointStatusNotReady
               type := NetworkFSTypeNFS } }]
    ∧ (OnNetworkFSChange w (some networkFS)).ret =
        updateStatus w
          { networkFS with
            status :=
              { networkFS.status with
                state := NetworkFSStateEnabling
                status := EndpointStatusNotReady
                type := NetworkFSTypeNFS } }
    ∧ (w.updateStatusErr = none →
        (OnNetworkFSChange w (some networkFS)).ret =
          .ok (some
            { networkFS with
              status :=
                { networkFS.status with
                  state := NetworkFSStateEnabling
                  status := EndpointStatusNotReady
                  type := NetworkFSTypeNFS } })) := by
  have c1 : ¬ NetworkFSStateEnabled = NetworkFSStateDisabled := by decide
  have c2 : ¬ NetworkFSStateDisabled = "" := by decide
  have c3 : ¬ NetworkFSStateDisabled = NetworkFSStateEnabling := by decide
  have hrun : OnNetworkFSChange w (some networkFS) =
      ⟨updateStatus w
          { networkFS with
            status :=
              { networkFS.status with
                state := NetworkFSStateEnabling
                status := EndpointStatusNotReady
                type := NetworkFSTypeNFS } },
        (if lhva.deepEqual (attachCpy networkFS lhva) = true then []
         else [attachCpy networkFS lhva]),
        [{ networkFS with
           status :=
             { networkFS.status with
               state := NetworkFSStateEnabling
               status := EndpointStatusNotReady
               type := NetworkFSTypeNFS } }]⟩ := by
    cases hde : lhva.deepEqual (attachCpy networkFS lhva) <;>
    · simp [OnNetworkFSChange, enableNetworkFS, updateLHVolumeAttachment,
        doAttachLHVolumeAttachment, isEnabling, hlive, hdesired, hstate, hsm, hstopped, hva,
        hupd, c1, c2, c3, hde]
      intro h
      have h2 := congrArg (fun r => r.status.state) h
      simp only [hstate] at h2
      exact absurd h2 c3
  rw [hrun]
  refine ⟨rfl, ?_, rfl, rfl, ?_⟩
  · simp only [lhvaAfter, hva, hupd]
    by_cases hde : lhva.deepEqual (attachCpy networkFS lhva) = true
    · exact ⟨lhva, by simp [hde], attach_left_tickets networkFS lhva lhva (Or.inl ⟨rfl, hde⟩)⟩
    · exact ⟨attachCpy networkFS lhva, by simp [hde],
        attach_left_tickets networkFS lhva _ (Or.inr rfl)⟩
  · intro hacc
    simp [updateStatus, hacc]

/-- The amended C4 at `pvc-1` observed Disabled, share-manager Stopped, no ticket installed
yet: the descriptor is written with both new tickets and the record moves to Enabling. -/
theorem OnNetworkFSChange_begin_enable_witness :
    (OnNetworkFSChange
        (sampleWorld ShareManagerStateStopped (sampleLHVA (some [])) "" ⟨[]⟩ (.ok (samplePV "")))
        (some (sampleNetworkFS NetworkFSStateEnabled NetworkFSStateDisabled))).lhvaUpdates =
      [{ name := "pvc-1",
         spec :=
           { volume := "pvc-1",
             attachmentTickets :=
               some [("share-manager-controller-pvc-1",
                       some { id := "share-manager-controller-pvc-1",
                              type := "share-manager-controller", nodeID := "node-1",
                              parameters := some [("disableFrontend", "false")] }),
                     ("csi-pvc-1",
                       some { id := "csi-pvc-1", type := "csi-attacher", nodeID := "node-1",
                              parameters := some [("disableFrontend", "false")] })] } }]
    ∧ (OnNetworkFSChange
        (sampleWorld ShareManagerStateStopped (sampleLHVA (some [])) "" ⟨[]⟩ (.ok (samplePV "")))
        (some (sampleNetworkFS NetworkFSStateEnabled NetworkFSStateDisabled))).statusWrites =
      [sampleNetworkFS NetworkFSStateEnabled NetworkFSStateEnabling]
    ∧ (OnNetworkFSChange
        (sampleWorld ShareManagerStateStopped (sampleLHVA (some [])) "" ⟨[]⟩ (.ok (samplePV "")))
        (some (sampleNetworkFS NetworkFSStateEnabled NetworkFSStateDisabled))).ret =
      .ok (some (sampleNetworkFS NetworkFSStateEnabled NetworkFSStateEnabling)) :=
  have h := OnNetworkFSChange_begin_enable
    (sampleWorld ShareManagerStateStopped (sampleLHVA (some [])) "" ⟨[]⟩ (.ok (samplePV "")))
    (sampleNetworkFS NetworkFSStateEnabled NetworkFSStateDisabled) ⟨⟨ShareManagerStateStopped⟩⟩
    (sampleLHVA (some [])) rfl rfl rfl rfl rfl rfl rfl
  ⟨h.1.trans (by decide), h.2.2.1, h.2.2.2.2 rfl⟩

/-- C5 as stated fails: `pvc-1` has desired state Disabled and is observed Enabled, the
volume-attachment fetch and update succeed, but the record carries a deletion marker; the
handler skips it (lines 54-57), leaves both tickets in the descriptor and writes nothing. -/
theorem OnNetworkFSChange_begin_disable_deleting :
    (sampleDeletingNetworkFS NetworkFSStateDisabled NetworkFSStateEnabled).spec.desiredState
        = NetworkFSStateDisabled
    ∧ (sampleDeletingNetworkFS NetworkFSStateDisabled NetworkFSStateEnabled).status.state ≠ ""
    ∧ (sampleDeletingNetworkFS NetworkFSStateDisabled NetworkFSStateEnabled).status.state
        ≠ NetworkFSStateDisabled
    ∧ (sampleDeletingNetworkFS NetworkFSStateDisabled NetworkFSStateEnabled).status.state
        ≠ NetworkFSStateDisabling
    ∧ OnNetworkFSChange sampleRunningWorld
        (some (sampleDeletingNetworkFS NetworkFSStateDisabled NetworkFSStateEnabled))
      = ⟨.ok none, [], []⟩
    ∧ lhvaAfter sampleRunningWorld
        (OnNetworkFSChange sampleRunningWorld
          (some (sampleDeletingNetworkFS NetworkFSStateDisabled NetworkFSStateEnabled)))
      = some (sampleLHVA (some sampleTickets)) := by
  decide

/-- C5, amended. For every record that is not being deleted (no deletion marker) with desired
state Disabled whose observed state is initialized and neither Disabled nor Disabling: if the
volume-attachment fetch and update succeed, then `OnNetworkFSChange` issues the detach update
when the observed ticket map is not already the empty map, so that the descriptor left in the
store has the empty ticket map; it issues exactly one status write, of the record with
`state=Disabling` and every other field as observed; and it returns what that status write
returns. -/
theorem OnNetworkFSChange_begin_disable (w : World) (networkFS : NetworkFilesystem)
    (lhva : VolumeAttachment)
    (hlive : networkFS.deletionTimestamp = none)
    (hdesired : networkFS.spec.desiredState = NetworkFSStateDisabled)
    (hinit : networkFS.status.state ≠ "")
    (hdisabled : networkFS.status.state ≠ NetworkFSStateDisabled)
    (hdisabling : networkFS.status.state ≠ NetworkFSStateDisabling)
    (hva : w.volumeAttachment = .ok lhva)
    (hupd : w.volumeAttachmentUpdateErr = none) :
    (OnNetworkFSChange w (some networkFS)).lhvaUpdates =
        (if lhva.deepEqual (detachCpy lhva) = true then [] else [detachCpy lhva])
    ∧ (∃ va, lhvaAfter w (OnNetworkFSChange w (some networkFS)) = some va
        ∧ va.spec.attachmentTickets = some [])
    ∧ (OnNetworkFSChange w (some networkFS)).statusWrites =
        [{ networkFS with status := { networkFS.status with state := NetworkFSStateDisabling } }]
    ∧ (OnNetworkFSChange w (some networkFS)).ret =
        updateStatus w
          { networkFS with
            status := { networkFS.status with state := NetworkFSStateDisabling } } := by
  have c1 : ¬ NetworkFSStateDisabled = NetworkFSStateEnabled := by decide
  have hds : ¬ NetworkFSStateDisabled = networkFS.status.state := fun h => hdisabled h.symm
  have hrun : OnNetworkFSChange w (some networkFS) =
      ⟨updateStatus w
          { networkFS with
            status := { networkFS.status with state := NetworkFSStateDisabling } },
        (if lhva.deepEqual (detachCpy lhva) = true then [] else [detachCpy lhva]),
        [{ networkFS with
           status := { networkFS.status with state := NetworkFSStateDisabling } }]⟩ := by
    cases hde : lhva.deepEqual (detachCpy lhva) <;>
    · simp [OnNetworkFSChange, disableNetworkFS, updateLHVolumeAttachment,
        doDeattachLHVolumeAttachment, isDisabling, hlive, hdesired, hinit, hds, hdisabling, hva,
        hupd, c1, hde]
      intro h
      have h2 := congrArg (fun r => r.status.state) h
      exact absurd h2 hdisabling
  rw [hrun]
  refine ⟨rfl, ?_, rfl, rfl⟩
  simp only [lhvaAfter, hva, hupd]
  by_cases hde : lhva.deepEqual (detachCpy lhva) = true
  · exact ⟨lhva, by simp [hde], tickets_of_deepEqual_detachCpy lhva hde⟩
  · exact ⟨detachCpy lhva, by simp [hde], rfl⟩

/-- The amended C5 at `pvc-1` observed Enabled with both tickets installed: the tickets are cleared and the
record moves to Disabling. -/
theorem OnNetworkFSChange_begin_disable_witness :
    (OnNetworkFSChange sampleRunningWorld
        (some (sampleNetworkFS NetworkFSStateDisabled NetworkFSStateEnabled))).lhvaUpdates =
      [sampleLHVA (some [])]
    ∧ (OnNetworkFSChange sampleRunningWorld
        (some (sampleNetworkFS NetworkFSStateDisabled NetworkFSStateEnabled))).statusWrites =
      [sampleNetworkFS NetworkFSStateDisabled NetworkFSStateDisabling] :=
  have h := OnNetworkFSChange_begin_disable sampleRunningWorld
    (sampleNetworkFS NetworkFSStateDisabled NetworkFSStateEnabled)
    (sampleLHVA (some sampleTickets)) rfl rfl (by decide) (by decide) (by decide) rfl rfl
  ⟨h.1.trans (by decide), h.2.2.1⟩

/-- C6 as stated fails: `pvc-1` has desired state Disabled and is observed Disabling, the
volume-attachment descriptor holds no ticket, the share-manager is Stopped; the handler writes
nothing, in particular not `state=Disabled`. -/
theorem OnNetworkFSChange_disabling_no_write :
    OnNetworkFSChange
        (sampleWorld ShareManagerStateStopped (sampleLHVA (some [])) "" ⟨[]⟩ (.ok (samplePV "")))
        (some (sampleNetworkFS NetworkFSStateDisabled NetworkFSStateDisabling))
      = ⟨.ok none, [], []⟩ := by
  decide

/-- C6, amended. For every record with desired state Disabled observed Disabling, whatever the
volume-attachment descriptor and the other resources hold, `OnNetworkFSChange` writes no status
(the record stays Disabling), issues no volume-attachment update and returns `(nil, nil)`. -/
theorem OnNetworkFSChange_disabling_noop (w : World) (networkFS : NetworkFilesystem)
    (hdesired : networkFS.spec.desiredState = NetworkFSStateDisabled)
    (hstate : networkFS.status.state = NetworkFSStateDisabling) :
    OnNetworkFSChange w (some networkFS) = ⟨.ok none, [], []⟩ := by
  have c1 : ¬ NetworkFSStateDisabled = NetworkFSStateDisabling := by decide
  have c2 : ¬ NetworkFSStateDisabling = "" := by decide
  have c3 : ¬ NetworkFSStateDisabled = NetworkFSStateEnabled := by decide
  simp [OnNetworkFSChange, disableNetworkFS, isDisabling, hdesired, hstate, c1, c2, c3]

/-- The amended C6 at `pvc-1` observed Disabling while both tickets are still installed. -/
theorem OnNetworkFSChange_disabling_noop_witness :
    OnNetworkFSChange sampleRunningWorld
        (some (sampleNetworkFS NetworkFSStateDisabled NetworkFSStateDisabling))
      = ⟨.ok none, [], []⟩ :=
  OnNetworkFSChange_disabling_noop sampleRunningWorld
    (sampleNetworkFS NetworkFSStateDisabled NetworkFSStateDisabling) rfl rfl

/-- C7 as stated fails: `pvc-1` is created with desired state Enabled and empty status while
the share-manager is Stopped. The first run writes `state=Unknown`; the second run, on that
written record, returns the wait-for-the-previous-operation error, installs no ticket and
writes no status. -/
theorem OnNetworkFSChange_cold_start_blocked :
    (OnNetworkFSChange
        (sampleWorld ShareManagerStateStopped (sampleLHVA (some [])) "" ⟨[]⟩ (.ok (samplePV "")))
        (some sampleColdRecord)).statusWrites = [sampleUnknownRecord]
    ∧ OnNetworkFSChange
        (sampleWorld ShareManagerStateStopped (sampleLHVA (some [])) "" ⟨[]⟩ (.ok (samplePV "")))
        (some sampleUnknownRecord)
      = ⟨.error (.failure "wait the previous operation (disable) to finish on pvc-1"), [], []⟩ := by
  decide

/-- C7, amended. For every live record created with desired state Enabled and uninitialized
state, with the share-manager Stopped: the first run of `OnNetworkFSChange` issues one status
write, of the record with the status `state=Unknown, endpointStatus=Unknown, type=NFS` and
nothing else, and no volume-attachment update; a second run on that written record returns the
wait-for-the-previous-operation error, installs no ticket and writes no status (Unknown does
not pass the prior-Disabled gate). -/
theorem OnNetworkFSChange_cold_start (w : World) (networkFS : NetworkFilesystem)
    (lhShareMgr : ShareManager)
    (hlive : networkFS.deletionTimestamp = none)
    (hdesired : networkFS.spec.desiredState = NetworkFSStateEnabled)
    (hempty : networkFS.status.state = "")
    (hsm : w.shareManager = .ok lhShareMgr)
    (hstopped : lhShareMgr.status.state = ShareManagerStateStopped) :
    (OnNetworkFSChange w (some networkFS)).statusWrites =
        [{ networkFS with
           status :=
             { state := NetworkFSStateUnknown, status := EndpointStatusUnknown,
               type := NetworkFSTypeNFS, endpoint := "", mountOpts := "",
               networkFSConds := [] } }]
    ∧ (OnNetworkFSChange w (some networkFS)).lhvaUpdates = []
    ∧ OnNetworkFSChange w
        (some { networkFS with
                status :=
                  { state := NetworkFSStateUnknown, status := EndpointStatusUnknown,
                    type := NetworkFSTypeNFS, endpoint := "", mountOpts := "",
                    networkFSConds := [] } })
      = ⟨.error (.failure
            ("wait the previous operation (disable) to finish on " ++ networkFS.name)), [], []⟩ := by
  have c1 : ¬ NetworkFSStateEnabled = "" := by decide
  have c2 : ¬ NetworkFSStateEnabled = NetworkFSStateUnknown := by decide
  have c3 : ¬ NetworkFSStateUnknown = "" := by decide
  have c4 : ¬ NetworkFSStateUnknown = NetworkFSStateEnabling := by decide
  have c5 : ¬ NetworkFSStateUnknown = NetworkFSStateDisabled := by decide
  refine ⟨?_, ?_, ?_⟩
  · simp [OnNetworkFSChange, hlive, hdesired, hempty, c1]
  · simp [OnNetworkFSChange, hlive, hdesired, hempty, c1]
  · simp [OnNetworkFSChange, enableNetworkFS, isEnabling, hlive, hdesired, hsm, hstopped, c2, c3,
      c4, c5]

/-- The amended C7 at the record `pvc-1` as created. -/
theorem OnNetworkFSChange_cold_start_witness :
    (OnNetworkFSChange
        (sampleWorld ShareManagerStateStopped (sampleLHVA (some [])) "" ⟨[]⟩ (.ok (samplePV "")))
        (some sampleColdRecord)).statusWrites = [sampleUnknownRecord]
    ∧ (OnNetworkFSChange
        (sampleWorld ShareManagerStateStopped (sampleLHVA (some [])) "" ⟨[]⟩ (.ok (samplePV "")))
        (some sampleColdRecord)).lhvaUpdates = []
    ∧ OnNetworkFSChange
        (sampleWorld ShareManagerStateStopped (sampleLHVA (some [])) "" ⟨[]⟩ (.ok (samplePV "")))
        (some sampleUnknownRecord)
      = ⟨.error (.failure ("wait the previous operation (disable) to finish on " ++ "pvc-1")),
          [], []⟩ :=
  OnNetworkFSChange_cold_start
    (sampleWorld ShareManagerStateStopped (sampleLHVA (some [])) "" ⟨[]⟩ (.ok (samplePV "")))
    sampleColdRecord ⟨⟨ShareManagerStateStopped⟩⟩ rfl rfl rfl rfl rfl

/-- C8 fails on the code at two shapes the claim lists. `pvc-1` is being enabled, the
share-manager is Running and the service is headless. With one subset holding one address and
no port, and with one subset holding no address and one port named `nfs`, `enableNetworkFS`
panics on an index out of range instead of returning an error; with two subsets it returns the
error. No status is written in any of the three runs. -/
theorem enableNetworkFS_endpoint_shape_panics :
    enableNetworkFS (sampleHeadlessWorld [⟨[⟨"10.0.0.7"⟩], []⟩])
        (sampleNetworkFS NetworkFSStateEnabled NetworkFSStateEnabling)
      = ⟨.panic "index out of range [0] with length 0", [], []⟩
    ∧ enableNetworkFS (sampleHeadlessWorld [⟨[], [⟨"nfs"⟩]⟩])
        (sampleNetworkFS NetworkFSStateEnabled NetworkFSStateEnabling)
      = ⟨.panic "index out of range [0] with length 0", [], []⟩
    ∧ enableNetworkFS
        (sampleHeadlessWorld [⟨[⟨"10.0.0.7"⟩], [⟨"nfs"⟩]⟩, ⟨[⟨"10.0.0.8"⟩], [⟨"nfs"⟩]⟩])
        (sampleNetworkFS NetworkFSStateEnabled NetworkFSStateEnabling)
      = ⟨.error (.failure "endpoint pvc-1 has more than one subSets"), [], []⟩ := by
  decide

/-! ## Endpoint-sync reconciler -/

/-- The record `OnServicesChange` computes is Enabling. -/
theorem syncCpy_state (w : ServiceWorld) (networkFS : NetworkFilesystem)
    (service : ServiceObject) :
    (syncCpy w networkFS service).status.state = NetworkFSStateEnabling := by
  unfold syncCpy
  split <;> rfl

/-- What `OnServicesChange` writes is the record it computes, and it writes only when the
fetched record has desired state Enabled and the service is not headless. -/
theorem OnServicesChange_writes (w : ServiceWorld) (service : Option ServiceObject)
    (written : NetworkFilesystem) (hw : written ∈ (OnServicesChange w service).statusWrites) :
    ∃ s networkFS, service = some s ∧ w.networkFS = .ok networkFS
      ∧ networkFS.spec.desiredState = NetworkFSStateEnabled
      ∧ s.spec.clusterIP ≠ ClusterIPNone
      ∧ written = syncCpy w networkFS s := by
  unfold OnServicesChange at hw
  split at hw
  · simp at hw
  · rename_i s
    split at hw
    · simp at hw
    · split at hw
      · simp at hw
      · split at hw
        · simp at hw
        · rename_i networkFS hget
          split at hw
          · simp at hw
          · rename_i hdesired
            split at hw
            · simp at hw
            · rename_i hheadless
              have h1 : networkFS.spec.desiredState = NetworkFSStateEnabled := by
                simpa using hdesired
              have h2 : s.spec.clusterIP ≠ ClusterIPNone := by simpa using hheadless
              split at hw
              · split at hw <;>
                · simp only [List.mem_singleton] at hw
                  exact ⟨s, networkFS, rfl, hget, h1, h2, hw⟩
              · simp at hw

/-- C12 (endpoint sync never promotes). For every store, service and record: every status that
`OnServicesChange` writes has `state=Enabling`, hence never Enabled, Disabled or Disabling,
whatever the observed state was; and it writes nothing when the fetched record's desired state
is not Enabled or when the service is headless. -/
theorem OnServicesChange_never_promotes (w : ServiceWorld) (service : Option ServiceObject) :
    (∀ written ∈ (OnServicesChange w service).statusWrites,
        written.status.state = NetworkFSStateEnabling
        ∧ written.status.state ≠ NetworkFSStateEnabled
        ∧ written.status.state ≠ NetworkFSStateDisabled
        ∧ written.status.state ≠ NetworkFSStateDisabling)
    ∧ (∀ networkFS, w.networkFS = .ok networkFS →
        networkFS.spec.desiredState ≠ NetworkFSStateEnabled →
        (OnServicesChange w service).statusWrites = [])
    ∧ (∀ s, service = some s → s.spec.clusterIP = ClusterIPNone →
        (OnServicesChange w service).statusWrites = []) := by
  have d1 : NetworkFSStateEnabling ≠ NetworkFSStateEnabled := by decide
  have d2 : NetworkFSStateEnabling ≠ NetworkFSStateDisabled := by decide
  have d3 : NetworkFSStateEnabling ≠ NetworkFSStateDisabling := by decide
  refine ⟨?_, ?_, ?_⟩
  · intro written hw
    obtain ⟨s, networkFS, _, _, _, _, hcpy⟩ := OnServicesChange_writes w service written hw
    have hst : written.status.state = NetworkFSStateEnabling := by
      rw [hcpy]
      exact syncCpy_state w networkFS s
    rw [hst]
    exact ⟨rfl, d1, d2, d3⟩
  · intro networkFS hget hdesired
    apply List.eq_nil_iff_forall_not_mem.2
    intro written hw
    obtain ⟨s, networkFS2, _, hget2, hd, _, _⟩ := OnServicesChange_writes w service written hw
    rw [hget] at hget2
    cases hget2
    exact hdesired hd
  · intro s hs hheadless
    apply List.eq_nil_iff_forall_not_mem.2
    intro written hw
    obtain ⟨s2, networkFS2, hs2, _, _, hh, _⟩ := OnServicesChange_writes w service written hw
    rw [hs] at hs2
    cases hs2
    exact hh hheadless

/-- A run of `OnServicesChange` that writes: `pvc-1` is observed Enabled at `10.0.0.5` and its
service now has the cluster address `10.0.0.9`; the record is written back as Enabling with the
new address. -/
theorem OnServicesChange_writes_enabling :
    ((OnServicesChange (sampleServiceWorld sampleEnabledRecord)
        (some (sampleService "10.0.0.9"))).statusWrites.map
      fun r => (r.status.state, r.status.endpoint)) = [("Enabling", "10.0.0.9")] := by
  decide

/-! ## Mount options -/

/-- C13 fails on the code at two of the three cases the claim lists. `pvc-1` is being enabled,
the share-manager is Running and the cluster address is `10.0.0.5`. When the backing volume is
not found, and when it is found without a CSI source, `enableNetworkFS` panics on a nil pointer
and writes nothing; when the CSI source has no `nfsOptions` attribute it writes the Enabled
status with empty mount options. -/
theorem enableNetworkFS_absent_mount_options :
    enableNetworkFS (samplePVWorld (.error (.notFound "persistentvolumes pvc-1 not found")))
        (sampleNetworkFS NetworkFSStateEnabled NetworkFSStateEnabling)
      = ⟨.panic "invalid memory address or nil pointer dereference", [], []⟩
    ∧ enableNetworkFS (samplePVWorld (.ok ⟨⟨none⟩⟩))
        (sampleNetworkFS NetworkFSStateEnabled NetworkFSStateEnabling)
      = ⟨.panic "invalid memory address or nil pointer dereference", [], []⟩
    ∧ ((enableNetworkFS (samplePVWorld (.ok ⟨⟨some ⟨some [("share", "true")]⟩⟩⟩))
          (sampleNetworkFS NetworkFSStateEnabled NetworkFSStateEnabling)).statusWrites.map
        fun r => (r.status.state, r.status.mountOpts)) = [("Enabled", "")]
    ∧ ((enableNetworkFS (samplePVWorld (.ok ⟨⟨some ⟨none⟩⟩⟩))
          (sampleNetworkFS NetworkFSStateEnabled NetworkFSStateEnabling)).statusWrites.map
        fun r => (r.status.state, r.status.mountOpts)) = [("Enabled", "")] := by
  decide

/-! ## Successive runs -/

theorem worldAfter_shareManager (w : World) (o : Outcome) :
    (worldAfter w o).shareManager = w.shareManager := by
  unfold worldAfter
  split <;> rfl

theorem worldAfter_updateStatusErr (w : World) (o : Outcome) :
    (worldAfter w o).updateStatusErr = w.updateStatusErr := by
  unfold worldAfter
  split <;> rfl

/-- A run that issued no volume-attachment update leaves the store as it was. -/
theorem worldAfter_of_no_updates (w : World) (o : Outcome) (h : o.lhvaUpdates = []) :
    worldAfter w o = w := by
  obtain ⟨sm, va, vaErr, svc, ep, pv, stErr, upd, now⟩ := w
  cases va <;> cases vaErr <;> simp [worldAfter, lhvaAfter, h]

/-- A run whose volume-attachment step handed back an error leaves the store as it was. -/
theorem worldAfter_of_update_error (w : World) (networkFS : NetworkFilesystem) (attach : Bool)
    (e : Error) (h : (updateLHVolumeAttachment w networkFS attach).1 = some e) (o : Outcome) :
    worldAfter w o = w := by
  obtain ⟨sm, va, vaErr, svc, ep, pv, stErr, upd, now⟩ := w
  cases va with
  | error err => simp [worldAfter, lhvaAfter]
  | ok lhva =>
    cases vaErr with
    | some err => simp [worldAfter, lhvaAfter]
    | none =>
      exfalso
      cases attach
      · by_cases hde : lhva.deepEqual (detachCpy lhva) = true <;>
          simp [updateLHVolumeAttachment, doDeattachLHVolumeAttachment, hde] at h
      · by_cases hde : lhva.deepEqual (attachCpy networkFS lhva) = true <;>
          simp [updateLHVolumeAttachment, doAttachLHVolumeAttachment, hde] at h

/-- The final step of `enableNetworkFS` issues no volume-attachment update of its own and writes
nothing or one Enabled record with the spec and deletion marker of its input. -/
theorem enableFinish_outcome (w : World) (networkFSCpy : NetworkFilesystem)
    (ups : List VolumeAttachment) :
    (enableFinish w networkFSCpy ups).lhvaUpdates = ups
    ∧ ((enableFinish w networkFSCpy ups).statusWrites = []
      ∨ ∃ r, (enableFinish w networkFSCpy ups).statusWrites = [r]
          ∧ r.spec = networkFSCpy.spec ∧ r.deletionTimestamp = networkFSCpy.deletionTimestamp
          ∧ r.status.state = NetworkFSStateEnabled) := by
  unfold enableFinish
  split
  · exact ⟨rfl, Or.inl rfl⟩
  · dsimp only
    split
    · exact ⟨rfl, Or.inl rfl⟩
    · exact ⟨rfl, Or.inr ⟨_, rfl, rfl, rfl, rfl⟩⟩

/-- The address resolution of `enableNetworkFS` issues no volume-attachment update of its own and
writes nothing or one Enabled record with the spec and deletion marker of its input. -/
theorem enableResolve_outcome (w : World) (networkFS : NetworkFilesystem)
    (lhShareMgr : ShareManager) (ups : List VolumeAttachment) :
    (enableResolve w networkFS lhShareMgr ups).lhvaUpdates = ups
    ∧ ((enableResolve w networkFS lhShareMgr ups).statusWrites = []
      ∨ ∃ r, (enableResolve w networkFS lhShareMgr ups).statusWrites = [r]
          ∧ r.spec = networkFS.spec ∧ r.deletionTimestamp = networkFS.deletionTimestamp
          ∧ r.status.state = NetworkFSStateEnabled) := by
  unfold enableResolve
  split
  · exact ⟨rfl, Or.inl rfl⟩
  · split
    · exact ⟨rfl, Or.inl rfl⟩
    · split
      · split
        · exact ⟨rfl, Or.inl rfl⟩
        · exact enableFinish_outcome _ _ _
      · dsimp only
        split
        · exact ⟨rfl, Or.inl rfl⟩
        · split
          · exact ⟨rfl, Or.inl rfl⟩
          · split
            · exact ⟨rfl, Or.inl rfl⟩
            · split
              · exact ⟨rfl, Or.inl rfl⟩
              · split
                · exact ⟨rfl, Or.inl rfl⟩
                · exact enableFinish_outcome _ _ _

/-- A run of `enableNetworkFS` either writes nothing and leaves the store as it was, or writes
one record with the spec and deletion marker of its input that is Enabled, or Enabling while
the share-manager is Stopped. -/
theorem enableNetworkFS_outcome (w : World) (networkFS : NetworkFilesystem) :
    ((enableNetworkFS w networkFS).statusWrites = []
        ∧ worldAfter w (enableNetworkFS w networkFS) = w)
    ∨ ∃ r, (enableNetworkFS w networkFS).statusWrites = [r]
        ∧ r.spec = networkFS.spec ∧ r.deletionTimestamp = networkFS.deletionTimestamp
        ∧ (r.status.state = NetworkFSStateEnabled
          ∨ (r.status.state = NetworkFSStateEnabling
            ∧ ∃ lhShareMgr, w.shareManager = .ok lhShareMgr
                ∧ lhShareMgr.status.state = ShareManagerStateStopped)) := by
  have c3 : ¬ NetworkFSStateDisabled = NetworkFSStateEnabling := by decide
  unfold enableNetworkFS
  split
  · exact Or.inl ⟨rfl, worldAfter_of_no_updates _ _ rfl⟩
  · rename_i lhShareMgr hsm
    split
    · rename_i hblock
      have hstopped : lhShareMgr.status.state = ShareManagerStateStopped := by
        simp only [Bool.and_eq_true, beq_iff_eq] at hblock
        exact hblock.2
      split
      · exact Or.inl ⟨rfl, worldAfter_of_no_updates _ _ rfl⟩
      · rename_i hdis
        have hdis2 : networkFS.status.state = NetworkFSStateDisabled := by simpa using hdis
        split
        · rename_i err ups heq
          exact Or.inl ⟨rfl, worldAfter_of_update_error w networkFS true err (by rw [heq]) _⟩
        · dsimp only
          split
          · exact Or.inr ⟨_, rfl, rfl, rfl, Or.inr ⟨rfl, lhShareMgr, hsm, hstopped⟩⟩
          · rename_i hsame
            exfalso
            have h := not_not.1 hsame
            have h2 := congrArg (fun r => r.status.state) h
            simp only [hdis2] at h2
            exact c3 h2
    · obtain ⟨hups, hw⟩ := enableResolve_outcome w networkFS lhShareMgr []
      rcases hw with hw | ⟨r, hr, h1, h2, h3⟩
      · exact Or.inl ⟨hw, worldAfter_of_no_updates _ _ hups⟩
      · exact Or.inr ⟨r, hr, h1, h2, Or.inl h3⟩

/-- A run of `disableNetworkFS` either writes nothing and leaves the store as it was, or writes
one Disabling record with the spec and deletion marker of its input. -/
theorem disableNetworkFS_outcome (w : World) (networkFS : NetworkFilesystem) :
    ((disableNetworkFS w networkFS).statusWrites = []
        ∧ worldAfter w (disableNetworkFS w networkFS) = w)
    ∨ ∃ r, (disableNetworkFS w networkFS).statusWrites = [r]
        ∧ r.spec = networkFS.spec ∧ r.deletionTimestamp = networkFS.deletionTimestamp
        ∧ r.status.state = NetworkFSStateDisabling := by
  unfold disableNetworkFS
  split
  · rename_i hnd
    have hnd2 : networkFS.status.state ≠ NetworkFSStateDisabling := by
      simpa [isDisabling] using hnd
    split
    · rename_i err ups heq
      exact Or.inl ⟨rfl, worldAfter_of_update_error w networkFS false err (by rw [heq]) _⟩
    · dsimp only
      split
      · exact Or.inr ⟨_, rfl, rfl, rfl, rfl⟩
      · rename_i hsame
        exfalso
        have h := not_not.1 hsame
        exact hnd2 (congrArg (fun r => r.status.state) h)
  · exact Or.inl ⟨rfl, worldAfter_of_no_updates _ _ rfl⟩

/-- The second of two successive runs writes nothing once the first run left an Enabled record
whose desired state is Enabled. -/
theorem OnNetworkFSChange_enabled_noop (w : World) (r : NetworkFilesystem)
    (hdesired : r.spec.desiredState = NetworkFSStateEnabled)
    (hstate : r.status.state = NetworkFSStateEnabled) :
    (OnNetworkFSChange w (some r)).statusWrites = [] := by
  simp only [OnNetworkFSChange, hdesired, hstate, beq_self_eq_true, if_true]
  split <;> rfl

/-- A run on an Enabling record with desired state Enabled writes nothing while the
share-manager is Stopped. -/
theorem OnNetworkFSChange_enabling_stopped (w : World) (r : NetworkFilesystem)
    (lhShareMgr : ShareManager)
    (hdesired : r.spec.desiredState = NetworkFSStateEnabled)
    (hstate : r.status.state = NetworkFSStateEnabling)
    (hsm : w.shareManager = .ok lhShareMgr)
    (hstopped : lhShareMgr.status.state = ShareManagerStateStopped) :
    (OnNetworkFSChange w (some r)).statusWrites = [] := by
  have c1 : ¬ NetworkFSStateEnabled = NetworkFSStateEnabling := by decide
  have c2 : ¬ NetworkFSStateEnabling = "" := by decide
  have c3 : ¬ ShareManagerStateStopped = ShareManagerStateRunning := by decide
  cases hdel : r.deletionTimestamp <;>
    simp [OnNetworkFSChange, enableNetworkFS, enableResolve, isEnabling, hdesired, hstate, hsm,
      hstopped, hdel, c1, c2, c3]

/-- A run on a Disabling record with desired state Disabled writes nothing. -/
theorem OnNetworkFSChange_disabling_writes (w : World) (r : NetworkFilesystem)
    (hdesired : r.spec.desiredState = NetworkFSStateDisabled)
    (hstate : r.status.state = NetworkFSStateDisabling) :
    (OnNetworkFSChange w (some r)).statusWrites = [] := by
  have c1 : ¬ NetworkFSStateDisabled = NetworkFSStateDisabling := by decide
  have c2 : ¬ NetworkFSStateDisabling = "" := by decide
  have c3 : ¬ NetworkFSStateDisabled = NetworkFSStateEnabled := by decide
  cases hdel : r.deletionTimestamp <;>
    simp [OnNetworkFSChange, disableNetworkFS, isDisabling, hdesired, hstate, hdel, c1, c2, c3]

/-- A run of `OnNetworkFSChange` on an initialized record either writes nothing and leaves the
store as it was, or writes one record with the spec of its input that is Enabled under desired
state Enabled, Enabling under desired state Enabled while the share-manager is Stopped, or
Disabling under desired state Disabled. -/
theorem OnNetworkFSChange_outcome (w : World) (networkFS : NetworkFilesystem)
    (hinit : networkFS.status.state ≠ "") :
    ((OnNetworkFSChange w (some networkFS)).statusWrites = []
        ∧ worldAfter w (OnNetworkFSChange w (some networkFS)) = w)
    ∨ ∃ r, (OnNetworkFSChange w (some networkFS)).statusWrites = [r]
        ∧ ((r.spec.desiredState = NetworkFSStateEnabled
              ∧ r.status.state = NetworkFSStateEnabled)
          ∨ (r.spec.desiredState = NetworkFSStateEnabled
              ∧ r.status.state = NetworkFSStateEnabling
              ∧ ∃ lhShareMgr, w.shareManager = .ok lhShareMgr
                  ∧ lhShareMgr.status.state = ShareManagerStateStopped)
          ∨ (r.spec.desiredState = NetworkFSStateDisabled
              ∧ r.status.state = NetworkFSStateDisabling)) := by
  have c1 : ¬ NetworkFSStateDisabled = NetworkFSStateEnabled := by decide
  by_cases hdel : networkFS.deletionTimestamp.isSome = true
  · have ho : OnNetworkFSChange w (some networkFS) = ⟨.ok none, [], []⟩ := by
      simp [OnNetworkFSChange, hdel]
    rw [ho]
    exact Or.inl ⟨rfl, worldAfter_of_no_updates _ _ rfl⟩
  · by_cases heq : networkFS.spec.desiredState = networkFS.status.state
    · have ho : OnNetworkFSChange w (some networkFS) = ⟨.ok none, [], []⟩ := by
        simp [OnNetworkFSChange, heq]
      rw [ho]
      exact Or.inl ⟨rfl, worldAfter_of_no_updates _ _ rfl⟩
    · by_cases hen : networkFS.spec.desiredState = NetworkFSStateEnabled
      · have hne : ¬ NetworkFSStateEnabled = networkFS.status.state := by
          rw [← hen]
          exact heq
        have ho : OnNetworkFSChange w (some networkFS) = enableNetworkFS w networkFS := by
          simp [OnNetworkFSChange, hdel, hen, hne, hinit]
        rw [ho]
        rcases enableNetworkFS_outcome w networkFS with h | ⟨r, hr, hspec, _, hst⟩
        · exact Or.inl h
        · refine Or.inr ⟨r, hr, ?_⟩
          rcases hst with hst | ⟨hst, hsm⟩
          · exact Or.inl ⟨by rw [hspec]; exact hen, hst⟩
          · exact Or.inr (Or.inl ⟨by rw [hspec]; exact hen, hst, hsm⟩)
      · by_cases hdis : networkFS.spec.desiredState = NetworkFSStateDisabled
        · have hne : ¬ NetworkFSStateDisabled = networkFS.status.state := by
            rw [← hdis]
            exact heq
          have ho : OnNetworkFSChange w (some networkFS) = disableNetworkFS w networkFS := by
            simp [OnNetworkFSChange, hdel, hdis, hne, hinit, c1]
          rw [ho]
          rcases disableNetworkFS_outcome w networkFS with h | ⟨r, hr, hspec, _, hst⟩
          · exact Or.inl h
          · exact Or.inr ⟨r, hr, Or.inr (Or.inr ⟨by rw [hspec]; exact hdis, hst⟩)⟩
        · have ho : OnNetworkFSChange w (some networkFS) = ⟨.ok none, [], []⟩ := by
            simp [OnNetworkFSChange, hdel, heq, hinit, hen, hdis]
          rw [ho]
          exact Or.inl ⟨rfl, worldAfter_of_no_updates _ _ rfl⟩

/-- The second of two successive runs on an initialized record issues no status write, the
store accepting status writes. -/
theorem OnNetworkFSChange_second_run (w : World) (networkFS : NetworkFilesystem)
    (hinit : networkFS.status.state ≠ "") (hstore : w.updateStatusErr = none) :
    (OnNetworkFSChange (worldAfter w (OnNetworkFSChange w (some networkFS)))
        (some (recordAfter w networkFS (OnNetworkFSChange w (some networkFS))))).statusWrites
      = [] := by
  have hrec : recordAfter w networkFS (OnNetworkFSChange w (some networkFS)) =
      (OnNetworkFSChange w (some networkFS)).statusWrites.getLast?.getD networkFS := by
    simp [recordAfter, hstore]
  rw [hrec]
  rcases OnNetworkFSChange_outcome w networkFS hinit with ⟨hw, hwa⟩ | ⟨r, hr, hcase⟩
  · rw [hwa, hw]
    simpa using hw
  · rw [hr]
    simp only [List.getLast?_singleton, Option.getD_some]
    rcases hcase with ⟨hd, hst⟩ | ⟨hd, hst, lhShareMgr, hsm, hstopped⟩ | ⟨hd, hst⟩
    · exact OnNetworkFSChange_enabled_noop _ r hd hst
    · exact OnNetworkFSChange_enabling_stopped _ r lhShareMgr hd hst
        (by rw [worldAfter_shareManager]; exact hsm) hstopped
    · exact OnNetworkFSChange_disabling_writes _ r hd hst

/-- C11 as stated fails: `pvc-1` is created with desired state Enabled and empty status while
the share-manager is Running, the service has its cluster address and the backing volume its
mount options. The first run writes `state=Unknown`; the second run, on the record as the first
one left it and with no external change, writes again, `state=Enabled`. -/
theorem OnNetworkFSChange_second_run_writes :
    (OnNetworkFSChange sampleRunningWorld (some sampleColdRecord)).statusWrites
        = [sampleUnknownRecord]
    ∧ recordAfter sampleRunningWorld sampleColdRecord
        (OnNetworkFSChange sampleRunningWorld (some sampleColdRecord)) = sampleUnknownRecord
    ∧ ((OnNetworkFSChange
          (worldAfter sampleRunningWorld
            (OnNetworkFSChange sampleRunningWorld (some sampleColdRecord)))
          (some (recordAfter sampleRunningWorld sampleColdRecord
            (OnNetworkFSChange sampleRunningWorld (some sampleColdRecord))))).statusWrites.map
        fun r => r.status.state) = [NetworkFSStateEnabled] := by
  decide

/-- C11, amended. For every record whose observed state is initialized and every fixed state of
the share-manager, service, endpoint and backing-volume resources: when `OnNetworkFSChange` is
run and then run again on the record as the first run left it, in the store as the first run
left it, the second run issues no status write provided the store accepts status writes, and
in every case the record after the second run is the record after the first. -/
theorem OnNetworkFSChange_idempotent (w : World) (networkFS : NetworkFilesystem)
    (hinit : networkFS.status.state ≠ "") :
    (w.updateStatusErr = none →
      (OnNetworkFSChange (worldAfter w (OnNetworkFSChange w (some networkFS)))
          (some (recordAfter w networkFS (OnNetworkFSChange w (some networkFS))))).statusWrites
        = [])
    ∧ recordAfter (worldAfter w (OnNetworkFSChange w (some networkFS)))
        (recordAfter w networkFS (OnNetworkFSChange w (some networkFS)))
        (OnNetworkFSChange (worldAfter w (OnNetworkFSChange w (some networkFS)))
          (some (recordAfter w networkFS (OnNetworkFSChange w (some networkFS)))))
      = recordAfter w networkFS (OnNetworkFSChange w (some networkFS)) := by
  refine ⟨OnNetworkFSChange_second_run w networkFS hinit, ?_⟩
  cases hstore : w.updateStatusErr with
  | some e =>
    have h2 : (worldAfter w (OnNetworkFSChange w (some networkFS))).updateStatusErr = some e := by
      rw [worldAfter_updateStatusErr]
      exact hstore
    simp only [recordAfter, h2]
  | none =>
    have h2 : (worldAfter w (OnNetworkFSChange w (some networkFS))).updateStatusErr = none := by
      rw [worldAfter_updateStatusErr]
      exact hstore
    have h3 := OnNetworkFSChange_second_run w networkFS hinit hstore
    generalize recordAfter w networkFS (OnNetworkFSChange w (some networkFS)) = r1 at h3 ⊢
    simp [recordAfter, h2, h3]

/-- The amended C11 at `pvc-1` observed Disabled with desired state Enabled and the
share-manager Stopped: the first run installs the tickets and writes Enabling, the second run
writes nothing. -/
theorem OnNetworkFSChange_idempotent_witness :
    (OnNetworkFSChange
        (worldAfter
          (sampleWorld ShareManagerStateStopped (sampleLHVA (some [])) "" ⟨[]⟩
            (.ok (samplePV "")))
          (OnNetworkFSChange
            (sampleWorld ShareManagerStateStopped (sampleLHVA (some [])) "" ⟨[]⟩
              (.ok (samplePV "")))
            (some (sampleNetworkFS NetworkFSStateEnabled NetworkFSStateDisabled))))
        (some (recordAfter
          (sampleWorld ShareManagerStateStopped (sampleLHVA (some [])) "" ⟨[]⟩
            (.ok (samplePV "")))
          (sampleNetworkFS NetworkFSStateEnabled NetworkFSStateDisabled)
          (OnNetworkFSChange
            (sampleWorld ShareManagerStateStopped (sampleLHVA (some [])) "" ⟨[]⟩
              (.ok (samplePV "")))
            (some (sampleNetworkFS NetworkFSStateEnabled NetworkFSStateDisabled)))))).statusWrites
      = [] :=
  (OnNetworkFSChange_idempotent
    (sampleWorld ShareManagerStateStopped (sampleLHVA (some [])) "" ⟨[]⟩ (.ok (samplePV "")))
    (sampleNetworkFS NetworkFSStateEnabled NetworkFSStateDisabled) (by decide)).1 rfl

end NetworkFSManager
